import Mathlib

/-!
Verification development for the `acq_db_generator` repository: a shallow
embedding in Lean 4 of the randomized database-generation core
(`manipulators.py`, `column_names.py`, `generator_definitions.py`,
`database_generator.py`) together with theorems about its behaviour.

Python's shared pseudo-random source (`random.random`, `random.randint`,
`random.choice`, `random.uniform`) is modelled as a state record `Rng`
holding two streams: a stream of rational draws in `[0,1)` standing for
`random.random()` results, and a stream of naturals standing for the index
draws behind `random.randint`/`random.choice`.  Each primitive consumes the
draw at the current position and advances the position, so the embedded
pipeline consumes randomness in exactly the order the Python code does.
Python `float` values are modelled as `Rat`.
-/

/-- The shared pseudo-random source: `floats` models successive
`random.random()` results (assumed in `[0,1)` where a theorem needs it),
`nats` models the successive index draws behind `random.randint` and
`random.choice`.  `fpos`/`npos` are the current read positions. -/
structure Rng where
  floats : Nat → Rat
  nats : Nat → Nat
  fpos : Nat
  npos : Nat

/-- `random.random()`: consume one float draw. -/
def Rng.nextFloat (r : Rng) : Rat × Rng :=
  (r.floats r.fpos, { r with fpos := r.fpos + 1 })

/-- One index draw (the randomness behind `random.choice`/`random.randint`). -/
def Rng.nextNat (r : Rng) : Nat × Rng :=
  (r.nats r.npos, { r with npos := r.npos + 1 })

/-- `random.randint(a, b)` (inclusive bounds): one index draw reduced to the
range `[a, b]`. -/
def pyRandint (a b : Nat) (r : Rng) : Nat × Rng :=
  let (x, r') := r.nextNat
  (a + x % (b - a + 1), r')

/-- `random.choice(l)` for a non-empty list, with `d` the (never used when
`l ≠ []`) fallback: one index draw reduced modulo the length. -/
def pyChoice (l : List α) (d : α) (r : Rng) : α × Rng :=
  let (x, r') := r.nextNat
  (l.getD (x % l.length) d, r')

/-- Python `int(q)` for a rational: truncation toward zero (`Int.div`
truncates toward zero, and a rational's denominator is positive). -/
def ratTrunc (q : Rat) : Int :=
  Int.div q.num q.den

/-! ## Values

A Python runtime value flowing through the manipulation pipeline:
`None`, `str`, `int` or `float` (floats modelled as rationals). -/

inductive Value where
  | vNull
  | vStr (s : String)
  | vInt (n : Int)
  | vReal (q : Rat)
deriving DecidableEq, Repr

/-- A Python number (`int` or `float`) as found in a parameter bag. -/
inductive PyNum where
  | pInt (n : Int)
  | pReal (q : Rat)
deriving DecidableEq, Repr

/-! ## Manipulators (`manipulators.py`) -/

/-- The manipulator classes defined in `manipulators.py`, plus `trashM` for
`TrashManipulator`, which `generator_definitions.py` imports and configures
but whose class is absent from the sources. -/
inductive MKind where
  | nullM
  | uppercaseM
  | lowercaseM
  | truncateM
  | prefixM
  | suffixM
  | multiplyM
  | addOffsetM
  | roundDecimalsM
  | trashM
deriving DecidableEq, Repr

/-- The `params` dict of `BaseManipulator.Config`: each key that some
manipulator reads, as an optional field (`none` = key absent, the
manipulator's `.get` default applies). -/
structure MParams where
  maxLength : Option Int
  prefixStr : Option String
  suffixStr : Option String
  multiplier : Option PyNum
  offset : Option PyNum
  decimals : Option Int
deriving DecidableEq, Repr

/-- An empty `params` dict. -/
def MParams.empty : MParams := ⟨none, none, none, none, none, none⟩

/-- A configured manipulator instance: its class (`kind`), its
`config.probability` and its `config.params`. -/
structure Manipulator where
  kind : MKind
  probability : Rat
  params : MParams
deriving DecidableEq, Repr

/-- `can_apply_to_type` of each manipulator class.  `TrashManipulator` is
missing from the sources; it is modelled as applicable to every type. -/
def can_apply_to_type (m : Manipulator) (sqlType : String) : Bool :=
  match m.kind with
  | .nullM => true
  | .uppercaseM => sqlType == "TEXT"
  | .lowercaseM => sqlType == "TEXT"
  | .truncateM => sqlType == "TEXT"
  | .prefixM => sqlType == "TEXT"
  | .suffixM => sqlType == "TEXT"
  | .multiplyM => sqlType == "INTEGER" || sqlType == "REAL"
  | .addOffsetM => sqlType == "INTEGER" || sqlType == "REAL"
  | .roundDecimalsM => sqlType == "REAL"
  | .trashM => true

/-- Python string slicing `s[:n]`, including a negative `n` counting from
the end. -/
def pySliceTo (s : String) (n : Int) : String :=
  if 0 ≤ n then ⟨s.data.take n.toNat⟩
  else ⟨s.data.take (s.length - (-n).toNat)⟩

/-- Python numeric multiplication with type promotion: `int * int` is an
`int`, any operand being a `float` makes the result a `float`. -/
def pyMul (v : Value) (m : PyNum) : Value :=
  match v, m with
  | .vInt n, .pInt k => .vInt (n * k)
  | .vInt n, .pReal q => .vReal (n * q)
  | .vReal q, .pInt k => .vReal (q * k)
  | .vReal q, .pReal p => .vReal (q * p)
  | v, _ => v

/-- Python numeric addition with type promotion. -/
def pyAdd (v : Value) (m : PyNum) : Value :=
  match v, m with
  | .vInt n, .pInt k => .vInt (n + k)
  | .vInt n, .pReal q => .vReal (n + q)
  | .vReal q, .pInt k => .vReal (q + k)
  | .vReal q, .pReal p => .vReal (q + p)
  | v, _ => v

/-- Round to the nearest integer, ties to even (Python's `round`). -/
def roundHalfEven (q : Rat) : Int :=
  if q - ⌊q⌋ < 1/2 then ⌊q⌋
  else if 1/2 < q - ⌊q⌋ then ⌊q⌋ + 1
  else if ⌊q⌋ % 2 = 0 then ⌊q⌋ else ⌊q⌋ + 1

/-- Python `round(q, d)` on the rational model of floats. -/
def pyRound (q : Rat) (d : Int) : Rat :=
  let p : Rat := (10 : Rat) ^ d
  (roundHalfEven (q * p) : Rat) / p

/-- `TrashManipulator.apply`.  The class is imported and configured by
`generator_definitions.py` but absent from the sources; only its
construction is ever reached there, so its transform is modelled as the
identity. -/
def trashApply (v : Value) : Value := v

/-- The `apply` method of each manipulator class in `manipulators.py`,
including each class's `isinstance` guard. -/
def applyManip (m : Manipulator) (v : Value) : Value :=
  match m.kind with
  | .nullM => .vNull
  | .uppercaseM =>
      match v with
      | .vStr s => .vStr s.toUpper
      | _ => v
  | .lowercaseM =>
      match v with
      | .vStr s => .vStr s.toLower
      | _ => v
  | .truncateM =>
      match v with
      | .vStr s => .vStr (pySliceTo s (m.params.maxLength.getD 10))
      | _ => v
  | .prefixM =>
      match v with
      | .vStr s => .vStr ((m.params.prefixStr.getD "PREFIX_") ++ s)
      | _ => v
  | .suffixM =>
      match v with
      | .vStr s => .vStr (s ++ (m.params.suffixStr.getD "_SUFFIX"))
      | _ => v
  | .multiplyM =>
      match v with
      | .vInt _ | .vReal _ =>
          let result := pyMul v (m.params.multiplier.getD (.pReal 1))
          match v, result with
          | .vInt _, .vReal q => if q.den = 1 then .vInt q.num else result
          | _, _ => result
      | _ => v
  | .addOffsetM =>
      match v with
      | .vInt _ | .vReal _ => pyAdd v (m.params.offset.getD (.pInt 0))
      | _ => v
  | .roundDecimalsM =>
      match v with
      | .vReal q => .vReal (pyRound q (m.params.decimals.getD 2))
      | _ => v
  | .trashM => trashApply v

/-- `BaseManipulator.should_apply` outcome for a single draw `x`:
`random.random() < probability`. -/
def should_apply (m : Manipulator) (x : Rat) : Bool :=
  x < m.probability

/-- Roll `should_apply` on each manipulator of the list in order, consuming
one float draw per manipulator, and keep the ones that fired.  This is the
draw pattern of the list comprehensions in
`ManipulatorApplier.apply_manipulations`. -/
def rollFired : List Manipulator → Rng → List Manipulator × Rng
  | [], r => ([], r)
  | m :: rest, r =>
      let (x, r1) := r.nextFloat
      let (tl, r2) := rollFired rest r1
      if should_apply m x then (m :: tl, r2) else (tl, r2)

/-- `ManipulatorApplier.apply_manipulations`: filter by applicability, roll
the applicable NULL manipulators first (any firing returns `None` at once),
then roll the remaining applicable manipulators and apply one randomly
chosen fired manipulator, or return the value unchanged when none fired. -/
def apply_manipulations (ms : List Manipulator) (value : Value)
    (sqlType : String) (r : Rng) : Value × Rng :=
  let applicable := ms.filter (fun m => can_apply_to_type m sqlType)
  let (null_fired, r1) := rollFired (applicable.filter (fun m => m.kind = .nullM)) r
  if null_fired ≠ [] then (.vNull, r1)
  else
    let (eligible, r2) := rollFired (applicable.filter (fun m => m.kind ≠ .nullM)) r1
    match eligible with
    | [] => (value, r2)
    | e :: es =>
        let (sel, r3) := pyChoice (e :: es) e r2
        (applyManip sel value, r3)

/-- `ManipulatorFactory.create`: include each candidate instance iff an
independent draw falls below its paired probability, one draw per pair, in
list order. -/
def ManipulatorFactory.create : List (Manipulator × Rat) → Rng → List Manipulator × Rng
  | [], r => ([], r)
  | (m, p) :: rest, r =>
      let (x, r1) := r.nextFloat
      let (tl, r2) := ManipulatorFactory.create rest r1
      if x < p then (m :: tl, r2) else (tl, r2)

/-- The `NullManipulator.create(probability=0.3)` instance built by
`create_test_manipulator`. -/
def nullManip03 : Manipulator := ⟨.nullM, 3/10, MParams.empty⟩

/-- The `TrashManipulator.create(probability=0.3)` instance built by
`create_test_manipulator` (class missing from the sources, see `trashApply`). -/
def trashManip03 : Manipulator := ⟨.trashM, 3/10, MParams.empty⟩

/-- The `UppercaseManipulator.create(probability=0.1)` instance built by
`create_test_manipulator`. -/
def upperManip01 : Manipulator := ⟨.uppercaseM, 1/10, MParams.empty⟩

/-- The `LowercaseManipulator.create(probability=0.05)` instance built by
`create_test_manipulator`. -/
def lowerManip005 : Manipulator := ⟨.lowercaseM, 1/20, MParams.empty⟩

/-- `create_test_manipulator` from `generator_definitions.py`: the factory
applied to the four (instance, inclusion-probability) pairs. -/
def create_test_manipulator (r : Rng) : List Manipulator × Rng :=
  ManipulatorFactory.create
    [(nullManip03, 3/4), (trashManip03, 1), (upperManip01, 1), (lowerManip005, 1)] r

/-! ## Column-name mutation (`column_names.py`) -/

/-- `string.ascii_lowercase`. -/
def asciiLowercase : List Char := "abcdefghijklmnopqrstuvwxyz".data

/-- `string.digits`. -/
def asciiDigits : List Char := "0123456789".data

/-- The `COLUMN_NAME` configuration block (`config.py`): modification
probability and intensity plus the four edit-type weights. -/
structure ColumnNameConfig where
  modification_probability : Rat
  modification_intensity : Rat
  char_flip_weight : Rat
  char_add_weight : Rat
  char_remove_weight : Rat
  char_replace_weight : Rat
deriving DecidableEq, Repr

/-- The concrete `COLUMN_NAME_CONFIG()` defaults from `config.py`. -/
def CONFIG_COLUMN_NAME : ColumnNameConfig :=
  ⟨1/10, 3/10, 4/10, 3/10, 2/10, 1/10⟩

/-- The cumulative-weight scan inside
`ColumnNameGenerator._choose_modification_type`: walk the `(name, weight)`
pairs keeping a running total, returning the first name whose cumulative
weight reaches the drawn value. -/
def chooseScan (randVal : Rat) : Rat → List (String × Rat) → Option String
  | _, [] => none
  | acc, (nm, w) :: rest =>
      if randVal ≤ acc + w then some nm else chooseScan randVal (acc + w) rest

/-- `ColumnNameGenerator._choose_modification_type`: zero total weight falls
back to `"flip"` without consuming a draw; otherwise one
`random.uniform(0, total)` draw (modelled as `float · total`) is scanned
against the cumulative weights, with `"flip"` as the fallthrough result. -/
def choose_modification_type (cfg : ColumnNameConfig) (r : Rng) : String × Rng :=
  let choices := [("flip", cfg.char_flip_weight), ("add", cfg.char_add_weight),
                  ("remove", cfg.char_remove_weight), ("replace", cfg.char_replace_weight)]
  let total := (choices.map (·.2)).sum
  if total = 0 then ("flip", r)
  else
    let (f, r1) := r.nextFloat
    let randVal := f * total
    ((chooseScan randVal 0 choices).getD "flip", r1)

/-- The `flip` arm of `_apply_modification`: swap two adjacent characters
at a uniformly chosen position. -/
def flip_edit (nameList : List Char) (r : Rng) : List Char × Rng :=
  let (pos, r1) := pyRandint 0 (nameList.length - 2) r
  ((nameList.set pos (nameList.getD (pos + 1) ' ')).set (pos + 1)
      (nameList.getD pos ' '), r1)

/-- The `add` arm of `_apply_modification`: insert one random character
(lowercase letter, digit or underscore) at a uniformly chosen position. -/
def add_edit (nameList : List Char) (r : Rng) : List Char × Rng :=
  let (pos, r1) := pyRandint 0 nameList.length r
  let (charType, r2) := pyChoice ["letter", "digit", "underscore"] "letter" r1
  if charType == "letter" then
    let (c, r3) := pyChoice asciiLowercase 'a' r2
    (nameList.insertIdx pos c, r3)
  else if charType == "digit" then
    let (c, r3) := pyChoice asciiDigits '0' r2
    (nameList.insertIdx pos c, r3)
  else (nameList.insertIdx pos '_', r2)

/-- The `remove` arm of `_apply_modification`: delete one character at a
uniformly chosen interior position (never the first or the last). -/
def remove_edit (nameList : List Char) (r : Rng) : List Char × Rng :=
  let (pos, r1) := pyRandint 1 (nameList.length - 2) r
  (nameList.eraseIdx pos, r1)

/-- The `replace` arm of `_apply_modification`: overwrite the character at
a uniformly chosen position with a random lowercase letter or digit. -/
def replace_edit (nameList : List Char) (r : Rng) : List Char × Rng :=
  let (pos, r1) := pyRandint 0 (nameList.length - 1) r
  let (charType, r2) := pyChoice ["letter", "digit"] "letter" r1
  if charType == "letter" then
    let (c, r3) := pyChoice asciiLowercase 'a' r2
    (nameList.set pos c, r3)
  else
    let (c, r3) := pyChoice asciiDigits '0' r2
    (nameList.set pos c, r3)

/-- `ColumnNameGenerator._apply_modification`: one character-level edit of
the given kind, with the same draw pattern and guard conditions as the
Python code; an unmatched kind or a failed length guard returns the name
unchanged. -/
def apply_modification (name : String) (modificationType : String) (r : Rng) :
    String × Rng :=
  if name = "" then (name, r)
  else if modificationType == "flip" && name.data.length > 1 then
    (⟨(flip_edit name.data r).1⟩, (flip_edit name.data r).2)
  else if modificationType == "add" then
    (⟨(add_edit name.data r).1⟩, (add_edit name.data r).2)
  else if modificationType == "remove" && name.data.length > 2 then
    (⟨(remove_edit name.data r).1⟩, (remove_edit name.data r).2)
  else if modificationType == "replace" && name.data.length > 0 then
    (⟨(replace_edit name.data r).1⟩, (replace_edit name.data r).2)
  else (name, r)

/-- The edit loop body of `ColumnNameGenerator._modify_column_name`:
`numModifications` rounds of choosing an edit type and applying it to the
current string. -/
def modification_rounds (cfg : ColumnNameConfig) : Nat → String → Rng → String × Rng
  | 0, s, r => (s, r)
  | k + 1, s, r =>
      let (mt, r1) := choose_modification_type cfg r
      let (s', r2) := apply_modification s mt r1
      modification_rounds cfg k s' r2

/-- `ColumnNameGenerator._modify_column_name`: names shorter than two
characters are returned unchanged; otherwise
`max(1, int(len * intensity * 0.3))` edit rounds are applied. -/
def modify_column_name (cfg : ColumnNameConfig) (name : String) (r : Rng) :
    String × Rng :=
  if name = "" ∨ name.length < 2 then (name, r)
  else
    let numModifications := (max 1 (ratTrunc ((name.length : Rat) * cfg.modification_intensity * (3/10)))).toNat
    modification_rounds cfg numModifications name r

/-- `ColumnNameGenerator.get_random_column_name` composed with
`BaseGenerator.get_random_column_name`: draw a base name uniformly from the
generator's pool, then gate the mutation on one
`random.random() < MODIFICATION_PROBABILITY` draw. -/
def get_random_column_name (cfg : ColumnNameConfig) (pool : List String) (r : Rng) :
    String × Rng :=
  let (baseName, r1) := pyChoice pool "" r
  let (g, r2) := r1.nextFloat
  if g < cfg.modification_probability then modify_column_name cfg baseName r2
  else (baseName, r2)

/-! ## Decimal rendering of counters, and termination of the collision loop

`database_generator.py` resolves column-name collisions with
`f"{draw}_{counter}"`, `counter += 1`.  Python's `str(counter)` is modelled
by `decStr` below.  The loop terminates because a candidate built with
counter `c` carries `c` as its trailing decimal suffix, so it can collide
with the finite used-name set only while `c` is at most the largest
trailing suffix occurring there. -/

/-- The decimal digit character for `d < 10`. -/
def digitOfNat (d : Nat) : Char := asciiDigits.getD d '0'

/-- The decimal digit characters of `n`, most significant first, by
structural recursion on a fuel that bounds the digit count (`fuel ≥ n`
suffices); agrees with `Nat.digits` by `decDigitsAux_eq`. -/
def decDigitsAux : Nat → Nat → List Char
  | 0, _ => []
  | _ + 1, 0 => []
  | fuel + 1, n + 1 =>
      decDigitsAux fuel ((n + 1) / 10) ++ [digitOfNat ((n + 1) % 10)]

/-- Python `str(n)` for a natural number: its decimal digits. -/
def decStr (n : Nat) : String :=
  if n = 0 then ⟨['0']⟩ else ⟨decDigitsAux n n⟩

theorem decDigitsAux_eq :
    ∀ (fuel n : Nat), n ≤ fuel →
      decDigitsAux fuel n = ((Nat.digits 10 n).reverse.map digitOfNat) := by
  intro fuel
  induction fuel with
  | zero =>
      intro n h
      interval_cases n
      simp [decDigitsAux]
  | succ f ih =>
      intro n h
      match n with
      | 0 => simp [decDigitsAux]
      | m + 1 =>
          have hdiv : (m + 1) / 10 ≤ f := by
            have := Nat.div_lt_self (Nat.succ_pos m) (by norm_num : (1:ℕ) < 10)
            omega
          rw [decDigitsAux, ih _ hdiv,
            Nat.digits_def' (by norm_num : (1:ℕ) < 10) (Nat.succ_pos m)]
          simp

theorem decStr_eq_digits (n : Nat) :
    decStr n = if n = 0 then ⟨['0']⟩ else ⟨((Nat.digits 10 n).reverse.map digitOfNat)⟩ := by
  unfold decStr
  by_cases h : n = 0
  · simp [h]
  · simp only [h, if_false]
    rw [decDigitsAux_eq n n (le_refl n)]

/-- The numeric value of a decimal digit character. -/
def charToDigit (c : Char) : Nat := c.toNat - 48

/-- The trailing decimal-digit run of a string, decoded as a natural number
(0 when the string ends in no digit). -/
def trailingNat (s : String) : Nat :=
  Nat.ofDigits 10 ((s.data.reverse.takeWhile Char.isDigit).map charToDigit)

/-- The largest trailing suffix among a list of names. -/
def maxTrailing (used : List String) : Nat :=
  (used.map trailingNat).foldr max 0

theorem charToDigit_digitOfNat : ∀ d : Nat, d < 10 → charToDigit (digitOfNat d) = d := by
  decide

theorem isDigit_digitOfNat : ∀ d : Nat, d < 10 → (digitOfNat d).isDigit = true := by
  decide

theorem takeWhile_append_not {p : α → Bool} :
    ∀ (l₁ : List α), (∀ a ∈ l₁, p a = true) → ∀ (y : α), p y = false →
      ∀ (l₂ : List α), (l₁ ++ y :: l₂).takeWhile p = l₁ := by
  intro l₁ h y hy l₂
  induction l₁ with
  | nil => simp [List.takeWhile, hy]
  | cons a as ih =>
      have ha : p a = true := h a (by simp)
      simp only [List.cons_append, List.takeWhile_cons, ha, if_true]
      rw [ih (fun b hb => h b (by simp [hb]))]

theorem decStr_data_digits (n : Nat) : ∀ c ∈ (decStr n).data, c.isDigit = true := by
  intro c hc
  rw [decStr_eq_digits] at hc
  by_cases h : n = 0
  · simp [h] at hc
    simp [hc]
  · simp [h] at hc
    obtain ⟨d, hd, rfl⟩ := hc
    exact isDigit_digitOfNat d (Nat.digits_lt_base (by norm_num) hd)

theorem decStr_decode (n : Nat) :
    Nat.ofDigits 10 (((decStr n).data.reverse).map charToDigit) = n := by
  rw [decStr_eq_digits]
  by_cases h : n = 0
  · subst h; decide
  · simp only [h, if_false]
    simp only [List.map_map, List.map_reverse, List.reverse_reverse]
    have h1 : List.map (charToDigit ∘ digitOfNat) (Nat.digits 10 n) =
        List.map id (Nat.digits 10 n) :=
      List.map_congr_left (fun d hd =>
        charToDigit_digitOfNat d (Nat.digits_lt_base (by norm_num) hd))
    rw [h1, List.map_id, Nat.ofDigits_digits]

theorem trailingNat_cand (base : String) (n : Nat) :
    trailingNat (base ++ "_" ++ decStr n) = n := by
  unfold trailingNat
  have hdata : (base ++ "_" ++ decStr n).data
      = base.data ++ '_' :: (decStr n).data := by
    simp
  rw [hdata]
  have hrev : (base.data ++ '_' :: (decStr n).data).reverse
      = (decStr n).data.reverse ++ '_' :: base.data.reverse := by
    simp
  rw [hrev]
  rw [takeWhile_append_not _
    (fun c hc => decStr_data_digits n c (List.mem_reverse.mp hc)) '_' (by decide) _]
  exact decStr_decode n

theorem le_maxTrailing {s : String} {used : List String} (h : s ∈ used) :
    trailingNat s ≤ maxTrailing used := by
  revert h
  induction used with
  | nil => intro h; cases h
  | cons a as ih =>
      intro h
      unfold maxTrailing
      simp only [List.map_cons, List.foldr_cons]
      rcases List.mem_cons.mp h with rfl | h'
      · exact le_max_left _ _
      · exact le_trans (ih h') (le_max_right _ _)

/-- The `while col_name in used_names:` loop of
`DatabaseGenerator.generate_table_schema`: at counter `c` the candidate is
a fresh name draw suffixed with `_{c}`; on a collision the counter is
incremented and the loop repeats.  The Python loop has no iteration cap;
it is nevertheless total, because a colliding candidate's trailing decimal
suffix equals its counter, so collisions are impossible once the counter
exceeds `maxTrailing used`.  The loop is embedded structurally on the fuel
`collision_fuel used counter`, which `collision_go_fuel_sufficient` proves
is never exhausted: on the zero-fuel arm the candidate provably cannot
collide, so the arm's unconditional return agrees with the loop. -/
def collision_go (used : List String) (nameDraw : Rng → String × Rng) :
    Nat → Nat → Rng → String × Rng
  | 0, counter, r =>
      ((nameDraw r).1 ++ "_" ++ decStr counter, (nameDraw r).2)
  | fuel + 1, counter, r =>
      if ((nameDraw r).1 ++ "_" ++ decStr counter) ∈ used then
        collision_go used nameDraw fuel (counter + 1) (nameDraw r).2
      else ((nameDraw r).1 ++ "_" ++ decStr counter, (nameDraw r).2)

/-- An upper bound on the iterations the collision loop can still take
from counter `counter`: beyond `maxTrailing used` no candidate collides. -/
def collision_fuel (used : List String) (counter : Nat) : Nat :=
  maxTrailing used + 2 - counter

/-- The collision loop itself, run on its sufficient fuel. -/
def collision_loop (used : List String) (nameDraw : Rng → String × Rng)
    (counter : Nat) (r : Rng) : String × Rng :=
  collision_go used nameDraw (collision_fuel used counter) counter r

theorem collision_go_succ (used : List String) (nameDraw : Rng → String × Rng)
    (fuel counter : Nat) (r : Rng) :
    collision_go used nameDraw (fuel + 1) counter r =
      if ((nameDraw r).1 ++ "_" ++ decStr counter) ∈ used then
        collision_go used nameDraw fuel (counter + 1) (nameDraw r).2
      else ((nameDraw r).1 ++ "_" ++ decStr counter, (nameDraw r).2) := rfl

/-- The collision loop never returns a used name: in the recursive arm this
is the loop guard, and the zero-fuel arm is only reached with
`counter > maxTrailing used`, where the candidate's trailing suffix exceeds
every trailing suffix in `used`. -/
theorem collision_go_notin (used : List String) (nameDraw : Rng → String × Rng) :
    ∀ (fuel counter : Nat) (r : Rng), maxTrailing used + 2 ≤ fuel + counter →
      (collision_go used nameDraw fuel counter r).1 ∉ used := by
  intro fuel
  induction fuel with
  | zero =>
      intro counter r hge hmem
      unfold collision_go at hmem
      have h1 := le_maxTrailing hmem
      rw [trailingNat_cand] at h1
      omega
  | succ n ih =>
      intro counter r hge
      rw [collision_go_succ]
      split
      · exact ih (counter + 1) (nameDraw r).2 (by omega)
      · rename_i hnot
        exact hnot

/-- The zero-fuel arm of `collision_go` is unreachable for any fuel at
least `collision_fuel used counter`: all sufficient fuels yield the same
result, so the fuel is an artifact of the embedding and `collision_loop`
computes the value of the unbounded Python loop. -/
theorem collision_go_fuel_sufficient (used : List String)
    (nameDraw : Rng → String × Rng) :
    ∀ (fuel counter : Nat) (r : Rng), maxTrailing used + 2 ≤ fuel + counter →
      collision_go used nameDraw fuel counter r =
        collision_loop used nameDraw counter r := by
  intro fuel
  induction fuel with
  | zero =>
      intro counter r hge
      unfold collision_loop collision_fuel
      have h2 : maxTrailing used + 2 - counter = 0 := by omega
      rw [h2]
  | succ n ih =>
      intro counter r hge
      by_cases hc : ((nameDraw r).1 ++ "_" ++ decStr counter) ∈ used
      · have hcnt : counter ≤ maxTrailing used := by
          have h1 := le_maxTrailing hc
          rw [trailingNat_cand] at h1
          exact h1
        have hF : collision_fuel used counter = collision_fuel used (counter + 1) + 1 := by
          unfold collision_fuel
          omega
        calc collision_go used nameDraw (n + 1) counter r
            = collision_go used nameDraw n (counter + 1) (nameDraw r).2 := by
              rw [collision_go_succ, if_pos hc]
          _ = collision_loop used nameDraw (counter + 1) (nameDraw r).2 :=
              ih _ _ (by omega)
          _ = collision_loop used nameDraw counter r := by
              conv_rhs => rw [collision_loop, hF, collision_go_succ, if_pos hc]
              rfl
      · rw [collision_go_succ, if_neg hc]
        rcases Nat.eq_zero_or_pos (collision_fuel used counter) with h0 | hpos
        · rw [collision_loop, h0]
          unfold collision_go
          rfl
        · obtain ⟨f, hf⟩ : ∃ f, collision_fuel used counter = f + 1 :=
            ⟨collision_fuel used counter - 1, by omega⟩
          rw [collision_loop, hf, collision_go_succ, if_neg hc]

/-- One column-name acquisition of `generate_table_schema`: draw a name; if
it is already used, enter the suffixing loop starting at counter 1. -/
def ensure_unique_name (used : List String) (nameDraw : Rng → String × Rng)
    (r : Rng) : String × Rng :=
  let (col, r1) := nameDraw r
  if col ∈ used then collision_loop used nameDraw 1 r1 else (col, r1)

/-! ## The generator catalog (`generator_definitions.py`) -/

/-- The data of one `BaseGenerator` subclass: `get_name()`,
`get_sql_type()` and `get_column_names()`.  Raw-value production calls the
external faker library and is modelled separately (`generate_raw_data`). -/
structure GenSpec where
  name : String
  sqlType : String
  columnNames : List String
deriving DecidableEq, Repr

/-- `NameGenerator` from generator_definitions.py: name, SQL type and column-name pool. -/
def nameGen : GenSpec :=
  ⟨"name", "TEXT",
   ["name",
    "full_name",
    "person_name",
    "user_name",
    "customer_name",
    "client_name",
    "display_name",
    "screen_name",
    "nev",
    "teljes_nev",
    "szemely_nev",
    "felhasznalo_nev",
    "ugyfel_nev",
    "kliens_nev",
    "megjelenito_nev"]⟩

/-- `FirstNameGenerator` from generator_definitions.py: name, SQL type and column-name pool. -/
def first_nameGen : GenSpec :=
  ⟨"first_name", "TEXT",
   ["first_name",
    "given_name",
    "forename",
    "christian_name",
    "keresztnev",
    "elso_nev",
    "vezeteknev_elott"]⟩

/-- `LastNameGenerator` from generator_definitions.py: name, SQL type and column-name pool. -/
def last_nameGen : GenSpec :=
  ⟨"last_name", "TEXT",
   ["last_name",
    "surname",
    "family_name",
    "lastname",
    "vezeteknev",
    "csaladi_nev",
    "utolso_nev"]⟩

/-- `CompanyGenerator` from generator_definitions.py: name, SQL type and column-name pool. -/
def companyGen : GenSpec :=
  ⟨"company", "TEXT",
   ["company",
    "corporation",
    "business",
    "enterprise",
    "firm",
    "organization",
    "workplace",
    "employer",
    "ceg",
    "vallalat",
    "uzlet",
    "vallalkozas",
    "cegek",
    "szervezet",
    "munkahely",
    "munkaado"]⟩

/-- `JobTitleGenerator` from generator_definitions.py: name, SQL type and column-name pool. -/
def job_titleGen : GenSpec :=
  ⟨"job_title", "TEXT",
   ["job_title",
    "position",
    "role",
    "occupation",
    "profession",
    "title",
    "job_role",
    "work_position",
    "munkakor",
    "pozicio",
    "szerep",
    "foglalkozas",
    "szakma",
    "beosztas",
    "munka_pozicio",
    "allasi_hely"]⟩

/-- `EmailGenerator` from generator_definitions.py: name, SQL type and column-name pool. -/
def emailGen : GenSpec :=
  ⟨"email", "TEXT",
   ["email",
    "email_address",
    "mail",
    "e_mail",
    "electronic_mail",
    "contact_email",
    "user_email",
    "email_cim",
    "levelezes",
    "elektronikus_lev",
    "kapcsolat_email"]⟩

/-- `PhoneGenerator` from generator_definitions.py: name, SQL type and column-name pool. -/
def phoneGen : GenSpec :=
  ⟨"phone", "TEXT",
   ["phone",
    "phone_number",
    "telephone",
    "mobile",
    "cell_phone",
    "contact_number",
    "tel_number",
    "telefon",
    "telefonszam",
    "mobil",
    "mobil_telefon",
    "kapcsolat_szam",
    "tel_szam"]⟩

/-- `AddressGenerator` from generator_definitions.py: name, SQL type and column-name pool. -/
def addressGen : GenSpec :=
  ⟨"address", "TEXT",
   ["address",
    "street_address",
    "home_address",
    "location",
    "residence",
    "postal_address",
    "cim",
    "utca_cim",
    "lakcim",
    "hely",
    "lakhely",
    "postai_cim"]⟩

/-- `CityGenerator` from generator_definitions.py: name, SQL type and column-name pool. -/
def cityGen : GenSpec :=
  ⟨"city", "TEXT",
   ["city",
    "town",
    "municipality",
    "urban_area",
    "settlement",
    "varos",
    "telepules",
    "onkormanyzat",
    "varosi_terulet"]⟩

/-- `CountryGenerator` from generator_definitions.py: name, SQL type and column-name pool. -/
def countryGen : GenSpec :=
  ⟨"country", "TEXT",
   ["country",
    "nation",
    "state",
    "homeland",
    "territory",
    "orszag",
    "nemzet",
    "allam",
    "haza",
    "terulet"]⟩

/-- `DescriptionGenerator` from generator_definitions.py: name, SQL type and column-name pool. -/
def descriptionGen : GenSpec :=
  ⟨"description", "TEXT",
   ["description",
    "details",
    "info",
    "information",
    "summary",
    "notes",
    "comments",
    "remarks",
    "leiras",
    "reszletek",
    "informacio",
    "osszefoglalas",
    "megjegyzesek",
    "kommentek",
    "eszrevetelek"]⟩

/-- `WebsiteGenerator` from generator_definitions.py: name, SQL type and column-name pool. -/
def websiteGen : GenSpec :=
  ⟨"website", "TEXT",
   ["website",
    "url",
    "web_address",
    "homepage",
    "site",
    "web_url",
    "link",
    "weboldal",
    "url_cim",
    "web_cim",
    "fooldal",
    "oldal",
    "link"]⟩

/-- `UsernameGenerator` from generator_definitions.py: name, SQL type and column-name pool. -/
def usernameGen : GenSpec :=
  ⟨"username", "TEXT",
   ["username",
    "login",
    "user_id",
    "account_name",
    "handle",
    "felhasznalo_nev",
    "bejelentkezes",
    "felhasznalo_id",
    "fiok_nev"]⟩

/-- `LicensePlateGenerator` from generator_definitions.py: name, SQL type and column-name pool. -/
def license_plateGen : GenSpec :=
  ⟨"license_plate", "TEXT",
   ["license_plate",
    "plate_number",
    "registration",
    "car_plate",
    "rendszam",
    "auto_rendszam",
    "jarmu_rendszam",
    "regisztracio"]⟩

/-- `ColorGenerator` from generator_definitions.py: name, SQL type and column-name pool. -/
def colorGen : GenSpec :=
  ⟨"color", "TEXT",
   ["color",
    "colour",
    "hue",
    "shade",
    "tint",
    "szin",
    "arnyalat",
    "tonalitas",
    "szinezes"]⟩

/-- `AgeGenerator` from generator_definitions.py: name, SQL type and column-name pool. -/
def ageGen : GenSpec :=
  ⟨"age", "INTEGER",
   ["age",
    "years_old",
    "birth_age",
    "current_age",
    "kor",
    "eletkor",
    "szuletesi_kor",
    "jelenlegi_kor"]⟩

/-- `EmployeeIdGenerator` from generator_definitions.py: name, SQL type and column-name pool. -/
def employee_idGen : GenSpec :=
  ⟨"employee_id", "INTEGER",
   ["employee_id",
    "staff_id",
    "worker_id",
    "emp_number",
    "personnel_id",
    "team_member_id",
    "alkalmazott_id",
    "dolgozoi_id",
    "munkatars_id",
    "szemelyzeti_szam"]⟩

/-- `QuantityGenerator` from generator_definitions.py: name, SQL type and column-name pool. -/
def quantityGen : GenSpec :=
  ⟨"quantity", "INTEGER",
   ["quantity",
    "amount",
    "count",
    "number",
    "total",
    "sum",
    "mennyiseg",
    "osszeg",
    "darab",
    "szam",
    "osszesen"]⟩

/-- `YearGenerator` from generator_definitions.py: name, SQL type and column-name pool. -/
def yearGen : GenSpec :=
  ⟨"year", "INTEGER",
   ["year",
    "birth_year",
    "creation_year",
    "start_year",
    "ev",
    "szuletesi_ev",
    "letrehozas_eve",
    "kezdo_ev"]⟩

/-- `OrderIDGenerator` from generator_definitions.py: name, SQL type and column-name pool. -/
def order_idGen : GenSpec :=
  ⟨"order_id", "INTEGER",
   ["order_id",
    "order_number",
    "purchase_id",
    "transaction_id",
    "sales_id",
    "order_reference",
    "order_primary_id",
    "purchase_reference",
    "transaction_reference",
    "rendeles_id",
    "rendeles_szam",
    "vasarlas_id",
    "tranzakcio_id",
    "eladas_id",
    "rendeles_hivatkozas",
    "rendeles_fo_id"]⟩

/-- `BankAccountNumberGenerator` from generator_definitions.py: name, SQL type and column-name pool. -/
def bank_account_numberGen : GenSpec :=
  ⟨"bank_account_number", "TEXT",
   ["bank_account_number",
    "account_number",
    "iban",
    "bank_account",
    "financial_account",
    "bankszamla_szam",
    "szamlaszam",
    "iban_szam",
    "penzugyi_szamla"]⟩

/-- `TemperatureGenerator` from generator_definitions.py: name, SQL type and column-name pool. -/
def temperatureGen : GenSpec :=
  ⟨"temperature", "REAL",
   ["temperature",
    "temp",
    "degrees",
    "thermal_reading",
    "homerseklet",
    "fok",
    "hoszam",
    "termikus_ertek"]⟩

/-- `LatitudeGenerator` from generator_definitions.py: name, SQL type and column-name pool. -/
def latitudeGen : GenSpec :=
  ⟨"latitude", "REAL",
   ["latitude",
    "lat",
    "north_south",
    "parallel",
    "szelesseg",
    "eszaki_deli",
    "szelessegi_fok"]⟩

/-- `LongitudeGenerator` from generator_definitions.py: name, SQL type and column-name pool. -/
def longitudeGen : GenSpec :=
  ⟨"longitude", "REAL",
   ["longitude",
    "lng",
    "lon",
    "east_west",
    "meridian",
    "hosszusag",
    "keleti_nyugati",
    "hosszusagi_fok"]⟩

/-- `AVAILABLE_GENERATORS` from generator_definitions.py (active, uncommented entries only). -/
def AVAILABLE_GENERATORS : List GenSpec :=
  [nameGen, first_nameGen, last_nameGen, companyGen, job_titleGen, emailGen, phoneGen, addressGen, cityGen, countryGen, descriptionGen, websiteGen, usernameGen, license_plateGen, colorGen, ageGen, employee_idGen, quantityGen, yearGen, order_idGen, bank_account_numberGen, temperatureGen, latitudeGen, longitudeGen]

/-- A constructed generator instance: `BaseGenerator.__init__` stores the
class data and a `ManipulatorApplier` over `get_manipulators()`, which for
every active generator class is `create_test_manipulator()` — a
construction-time random draw. -/
structure GenInst where
  spec : GenSpec
  manipulators : List Manipulator
deriving DecidableEq, Repr

/-- `generator_class()` for an active class: construction runs
`create_test_manipulator`, consuming four float draws. -/
def instantiate_generator (g : GenSpec) (r : Rng) : GenInst × Rng :=
  let (ms, r') := create_test_manipulator r
  (⟨g, ms⟩, r')

/-- The instantiation loop shared by `get_generators_by_type` and friends:
every class in the registry is constructed, in order. -/
def instantiate_all : List GenSpec → Rng → List GenInst × Rng
  | [], r => ([], r)
  | g :: rest, r =>
      let (gi, r1) := instantiate_generator g r
      let (tl, r2) := instantiate_all rest r1
      (gi :: tl, r2)

/-- `get_generators_by_type`: construct every registered generator (each
construction consumes manipulator-factory draws), keep those whose
`sql_type` matches. -/
def get_generators_by_type (catalog : List GenSpec) (sqlType : String)
    (r : Rng) : List GenInst × Rng :=
  let (insts, r1) := instantiate_all catalog r
  (insts.filter (fun gi => gi.spec.sqlType == sqlType), r1)

/-- The three `CONFIG.GENERATOR_WEIGHTS` scalars. -/
structure TypeWeights where
  text : Rat
  integer : Rat
  real : Rat
deriving DecidableEq, Repr

/-- The concrete `GENERATOR_TYPE_WEIGHTS()` defaults from `config.py`. -/
def CONFIG_GENERATOR_WEIGHTS : TypeWeights := ⟨4, 3, 1⟩

/-- The `weighted_types` ballot of `get_random_generator_weighted`: each
SQL type repeated `int(weight * 10)` times (Python `int` truncates toward
zero, and a negative repetition count yields the empty list), in the dict
insertion order TEXT, INTEGER, REAL. -/
def weighted_types (w : TypeWeights) : List String :=
  List.replicate (ratTrunc (w.text * 10)).toNat "TEXT"
    ++ List.replicate (ratTrunc (w.integer * 10)).toNat "INTEGER"
    ++ List.replicate (ratTrunc (w.real * 10)).toNat "REAL"

/-- `get_random_generator_weighted`: draw one ballot ticket uniformly
(raising `IndexError` on an empty ballot, as `random.choice` does), collect
the generators of the winning type, raise
`ValueError("No generators found for SQL type: ...")` if there are none,
else draw one of them uniformly. -/
def get_random_generator_weighted (w : TypeWeights) (catalog : List GenSpec)
    (r : Rng) : Except String (GenInst × Rng) :=
  match weighted_types w with
  | [] => .error "IndexError: Cannot choose from an empty sequence"
  | t :: ts =>
      let (selectedType, r1) := pyChoice (t :: ts) t r
      let (gens, r2) := get_generators_by_type catalog selectedType r1
      match gens with
      | [] => .error ("No generators found for SQL type: " ++ selectedType)
      | g :: gs =>
          let (sel, r3) := pyChoice (g :: gs) g r2
          .ok (sel, r3)

/-! ## Schema assembly (`database_generator.py`) -/

/-- One entry of `column_definitions`: `(col_name, generator_name,
generator)`; the identity column carries no generator (`none` models its
`lambda: None` placeholder). -/
structure ColumnDef where
  colName : String
  genName : String
  gen : Option GenInst
deriving DecidableEq, Repr

/-- The identity column's `("id", "id", lambda: None)` entry. -/
def idColumnDef : ColumnDef := ⟨"id", "id", none⟩

/-- The per-column loop of `generate_table_schema`: for each remaining
slot, pick a weighted random generator, obtain a collision-free column
name, record the DDL fragment and the column definition. -/
def schema_loop (w : TypeWeights) (catalog : List GenSpec)
    (cfg : ColumnNameConfig) :
    Nat → List String → List String → List ColumnDef → Rng →
    Except String (List String × List ColumnDef × Rng)
  | 0, _, cols, defs, r => .ok (cols, defs, r)
  | k + 1, used, cols, defs, r =>
      match get_random_generator_weighted w catalog r with
      | .error e => .error e
      | .ok (gen, r1) =>
          let (colName, r2) :=
            ensure_unique_name used (get_random_column_name cfg gen.spec.columnNames) r1
          schema_loop w catalog cfg k (colName :: used)
            (cols ++ [colName ++ " " ++ gen.spec.sqlType])
            (defs ++ [⟨colName, gen.spec.name, some gen⟩]) r2

/-- `DatabaseGenerator.generate_table_schema`: `num_columns =
random.randint(3, 8)`; the identity column is added first and its name
seeds the used-name set; the remaining `num_columns - 1` columns come from
`schema_loop`; the result is the `CREATE TABLE` statement and the column
definitions. -/
def generate_table_schema (w : TypeWeights) (catalog : List GenSpec)
    (cfg : ColumnNameConfig) (tableName : String) (r : Rng) :
    Except String (String × List ColumnDef × Rng) :=
  let (numColumns, r1) := pyRandint 3 8 r
  match schema_loop w catalog cfg (numColumns - 1) ["id"]
      ["id INTEGER PRIMARY KEY AUTOINCREMENT"] [idColumnDef] r1 with
  | .error e => .error e
  | .ok (cols, defs, r2) =>
      .ok ("CREATE TABLE " ++ tableName ++ " (" ++ String.intercalate ", " cols ++ ")",
           defs, r2)

/-- `random.uniform(a, b)`: one float draw scaled affinely onto `[a, b]`. -/
def pyUniform (a b : Rat) (r : Rng) : Rat × Rng :=
  (a + (b - a) * r.nextFloat.1, r.nextFloat.2)

/-- `generate_raw_data` of the registered generator classes of
`generator_definitions.py`.  The eight active non-faker classes are
embedded from their sources: `age` is `random.randint(18, 90)`,
`employee_id` is `random.randint(1000, 9999)`, `quantity` is
`random.randint(1, 1000)`, `year` is `random.randint(1950, 2024)`,
`order_id` draws `random.choice([12, 92])` then
`random.randint(100000, 999999)` and concatenates the decimal digits
(`int(f"{prefix}{suffix}")`; the suffix always has exactly six digits, so
the concatenation equals `prefix * 10^6 + suffix`), `temperature` is
`round(random.uniform(-10.0, 40.0), 1)`, `latitude` is
`round(random.uniform(-90.0, 90.0), 6)`, and `longitude` is
`round(random.uniform(-180.0, 180.0), 6)`.  The sixteen remaining active
classes (all TEXT) delegate to the external faker library, which is absent
from the sources; that branch is Modelled from the spec: a pure string
draw from the shared randomness source, rendered as one index draw turned
into a class-tagged string. -/
def generate_raw_data (g : GenSpec) (r : Rng) : Value × Rng :=
  if g.name == "age" then
    let (x, r1) := pyRandint 18 90 r
    (.vInt x, r1)
  else if g.name == "employee_id" then
    let (x, r1) := pyRandint 1000 9999 r
    (.vInt x, r1)
  else if g.name == "quantity" then
    let (x, r1) := pyRandint 1 1000 r
    (.vInt x, r1)
  else if g.name == "year" then
    let (x, r1) := pyRandint 1950 2024 r
    (.vInt x, r1)
  else if g.name == "order_id" then
    let (p, r1) := pyChoice ([12, 92] : List Int) 12 r
    let (s, r2) := pyRandint 100000 999999 r1
    (.vInt (p * 1000000 + s), r2)
  else if g.name == "temperature" then
    let (u, r1) := pyUniform (-10) 40 r
    (.vReal (pyRound u 1), r1)
  else if g.name == "latitude" then
    let (u, r1) := pyUniform (-90) 90 r
    (.vReal (pyRound u 6), r1)
  else if g.name == "longitude" then
    let (u, r1) := pyUniform (-180) 180 r
    (.vReal (pyRound u 6), r1)
  else
    let (x, r1) := r.nextNat
    (.vStr (g.name ++ "_" ++ decStr x), r1)

/-- `BaseGenerator.generate_data`: raw value, then the manipulation
pipeline of the instance's manipulators. -/
def generate_data (gi : GenInst) (r : Rng) : Value × Rng :=
  let (raw, r1) := generate_raw_data gi.spec r
  apply_manipulations gi.manipulators raw gi.spec.sqlType r1

/-- `DatabaseGenerator.generate_row_data`: one value per non-identity
column (the `"id"` entry is skipped by name); a column with no generator
degrades to `None` (the code's `except` path). -/
def generate_row_data : List ColumnDef → Rng → List Value × Rng
  | [], r => ([], r)
  | d :: rest, r =>
      if d.colName == "id" then generate_row_data rest r
      else
        match d.gen with
        | none =>
            let (tl, r1) := generate_row_data rest r
            (.vNull :: tl, r1)
        | some g =>
            let (v, r1) := generate_data g r
            let (tl, r2) := generate_row_data rest r1
            (v :: tl, r2)

/-- The row loop of `DatabaseGenerator.create_table`. -/
def generate_rows (defs : List ColumnDef) : Nat → Rng → List (List Value) × Rng
  | 0, r => ([], r)
  | k + 1, r =>
      let (row, r1) := generate_row_data defs r
      let (rest, r2) := generate_rows defs k r1
      (row :: rest, r2)

/-- `CONFIG.MIN_ROWS_PER_TABLE` / `CONFIG.MAX_ROWS_PER_TABLE`. -/
def CONFIG_MIN_ROWS : Nat := 6000
/-- See `CONFIG_MIN_ROWS`. -/
def CONFIG_MAX_ROWS : Nat := 6000
/-- `CONFIG.MIN_TABLES`. -/
def CONFIG_MIN_TABLES : Nat := 6
/-- `CONFIG.MAX_TABLES`. -/
def CONFIG_MAX_TABLES : Nat := 8

/-- `DatabaseGenerator.create_table`, randomness-relevant part: schema
generation, then `num_rows = random.randint(MIN, MAX)`, then the row loop.
An exception from schema generation propagates. -/
def create_table_data (w : TypeWeights) (catalog : List GenSpec)
    (cfg : ColumnNameConfig) (minRows maxRows : Nat) (tableName : String) (r : Rng) :
    Except String (String × List ColumnDef × List (List Value) × Rng) :=
  match generate_table_schema w catalog cfg tableName r with
  | .error e => .error e
  | .ok (schema, defs, r1) =>
      let (numRows, r2) := pyRandint minRows maxRows r1
      let (rows, r3) := generate_rows defs numRows r2
      .ok (schema, defs, rows, r3)

/-- The table loop of `DatabaseGenerator.generate_database`: tables
`table1`, `table2`, ... are built in order; an exception aborts the run,
leaving the tables already built.  The result is the list of completed
tables, the error if one occurred, and the final random state. -/
def generate_tables (w : TypeWeights) (catalog : List GenSpec)
    (cfg : ColumnNameConfig) (minRows maxRows : Nat) :
    Nat → Nat → Rng →
    List (String × List ColumnDef × List (List Value)) × Option String × Rng
  | 0, _, r => ([], none, r)
  | k + 1, i, r =>
      match create_table_data w catalog cfg minRows maxRows ("table" ++ decStr i) r with
      | .error e => ([], some e, r)
      | .ok (schema, defs, rows, r1) =>
          let (rest, err, r2) := generate_tables w catalog cfg minRows maxRows k (i + 1) r1
          ((schema, defs, rows) :: rest, err, r2)

/-- `DatabaseGenerator.generate_database`, randomness-relevant part:
`num_tables = random.randint(MIN_TABLES, MAX_TABLES)` followed by the table
loop.  There is no validation step of any kind before the first table is
built. -/
def generate_database (w : TypeWeights) (catalog : List GenSpec)
    (cfg : ColumnNameConfig) (minTables maxTables minRows maxRows : Nat) (r : Rng) :
    List (String × List ColumnDef × List (List Value)) × Option String × Rng :=
  let (numTables, r1) := pyRandint minTables maxTables r
  generate_tables w catalog cfg minRows maxRows numTables 1 r1

/-- The full pipeline at the concrete configuration of `config.py` and the
registry of `generator_definitions.py`. -/
def generate_database_config (r : Rng) :
    List (String × List ColumnDef × List (List Value)) × Option String × Rng :=
  generate_database CONFIG_GENERATOR_WEIGHTS AVAILABLE_GENERATORS CONFIG_COLUMN_NAME
    CONFIG_MIN_TABLES CONFIG_MAX_TABLES CONFIG_MIN_ROWS CONFIG_MAX_ROWS r

/-! ## Lemmas about the manipulation pipeline -/

theorem rollFired_floats ( ms : List Manipulator) (r : Rng) :
    (rollFired ms r).2.floats = r.floats := by
  induction ms generalizing r with
  | nil => rfl
  | cons m rest ih =>
      unfold rollFired
      simp only [Rng.nextFloat]
      split <;> exact ih _

theorem rollFired_subset {ms : List Manipulator} {r : Rng} :
    ∀ m ∈ (rollFired ms r).1, m ∈ ms := by
  induction ms generalizing r with
  | nil => intro m h; exact absurd h (by simp [rollFired])
  | cons a rest ih =>
      intro m h
      unfold rollFired at h
      simp only [Rng.nextFloat] at h
      by_cases hf : should_apply a (r.floats r.fpos)
      · simp only [hf, if_true] at h
        rcases List.mem_cons.mp h with rfl | h'
        · exact List.mem_cons_self _ _
        · exact List.mem_cons_of_mem _ (ih _ h')
      · simp only [hf, if_false] at h
        exact List.mem_cons_of_mem _ (ih _ h)

theorem rollFired_mem_of_prob_one {ms : List Manipulator} {r : Rng}
    (hlt : ∀ n, r.floats n < 1) :
    ∀ m ∈ ms, m.probability = 1 → m ∈ (rollFired ms r).1 := by
  induction ms generalizing r with
  | nil => intro m h; cases h
  | cons a rest ih =>
      intro m h hp
      unfold rollFired
      simp only [Rng.nextFloat]
      rcases List.mem_cons.mp h with rfl | h'
      · have : should_apply m (r.floats r.fpos) = true := by
          simp [should_apply, hp, hlt r.fpos]
        simp [this]
      · have hmem := ih (r := { r with fpos := r.fpos + 1 }) hlt m h' hp
        split <;> simp [hmem]

theorem rollFired_empty_of_prob_zero {ms : List Manipulator} {r : Rng}
    (h0 : ∀ m ∈ ms, m.probability = 0) (hge : ∀ n, 0 ≤ r.floats n) :
    (rollFired ms r).1 = [] := by
  induction ms generalizing r with
  | nil => rfl
  | cons a rest ih =>
      unfold rollFired
      simp only [Rng.nextFloat]
      have ha : should_apply a (r.floats r.fpos) = false := by
        simp [should_apply, h0 a (List.mem_cons_self _ _)]
        exact hge r.fpos
      simp only [ha, if_false]
      exact ih (fun m hm => h0 m (List.mem_cons_of_mem _ hm)) hge

theorem pyChoice_mem {l : List α} (h : l ≠ []) (d : α) (r : Rng) :
    (pyChoice l d r).1 ∈ l := by
  unfold pyChoice
  simp only [Rng.nextNat]
  have hlen : 0 < l.length := List.length_pos.mpr h
  have hmod : r.nats r.npos % l.length < l.length := Nat.mod_lt _ hlen
  rw [List.getD_eq_getElem l d hmod]
  exact List.getElem_mem _

/-- The applicable NULL manipulators, as filtered by
`apply_manipulations`. -/
def nullApplicable (ms : List Manipulator) (sqlType : String) : List Manipulator :=
  (ms.filter (fun m => can_apply_to_type m sqlType)).filter (fun m => m.kind = .nullM)

/-- The applicable non-NULL manipulators, as filtered by
`apply_manipulations`. -/
def nonNullApplicable (ms : List Manipulator) (sqlType : String) : List Manipulator :=
  (ms.filter (fun m => can_apply_to_type m sqlType)).filter (fun m => m.kind ≠ .nullM)

theorem apply_manipulations_eq (ms : List Manipulator) (value : Value)
    (sqlType : String) (r : Rng) :
    apply_manipulations ms value sqlType r =
      (if (rollFired (nullApplicable ms sqlType) r).1 ≠ [] then
        (.vNull, (rollFired (nullApplicable ms sqlType) r).2)
      else
        match (rollFired (nonNullApplicable ms sqlType)
            (rollFired (nullApplicable ms sqlType) r).2).1 with
        | [] => (value, (rollFired (nonNullApplicable ms sqlType)
            (rollFired (nullApplicable ms sqlType) r).2).2)
        | e :: es =>
            (applyManip (pyChoice (e :: es) e (rollFired (nonNullApplicable ms sqlType)
                (rollFired (nullApplicable ms sqlType) r).2).2).1 value,
             (pyChoice (e :: es) e (rollFired (nonNullApplicable ms sqlType)
                (rollFired (nullApplicable ms sqlType) r).2).2).2)) := rfl

/-- A non-NULL manipulator's transform never produces `None` from a
non-`None` input. -/
theorem applyManip_ne_null {m : Manipulator} {v : Value}
    (hv : v ≠ .vNull) (hk : m.kind ≠ .nullM) : applyManip m v ≠ .vNull := by
  unfold applyManip
  cases hm : m.kind <;> try exact absurd hm hk
  case uppercaseM => cases v <;> simp_all
  case lowercaseM => cases v <;> simp_all
  case truncateM => cases v <;> simp_all
  case prefixM => cases v <;> simp_all
  case suffixM => cases v <;> simp_all
  case trashM => cases v <;> simp_all [trashApply]
  case roundDecimalsM => cases v <;> simp_all
  case addOffsetM =>
      cases v with
      | vNull => exact absurd rfl hv
      | vStr s => simp
      | vInt n => cases m.params.offset.getD (.pInt 0) <;> simp [pyAdd]
      | vReal q => cases m.params.offset.getD (.pInt 0) <;> simp [pyAdd]
  case multiplyM =>
      cases v with
      | vNull => exact absurd rfl hv
      | vStr s => simp
      | vInt n =>
          cases hmul : m.params.multiplier.getD (.pReal 1) with
          | pInt k => simp [pyMul, hmul]
          | pReal q =>
              simp only [pyMul, hmul]
              split <;> simp
      | vReal q =>
          cases hmul : m.params.multiplier.getD (.pReal 1) with
          | pInt k => simp [pyMul, hmul]
          | pReal p => simp [pyMul, hmul]

theorem pipeline_null_of_fired {ms : List Manipulator} {value : Value}
    {sqlType : String} {r : Rng}
    (h : (rollFired (nullApplicable ms sqlType) r).1 ≠ []) :
    (apply_manipulations ms value sqlType r).1 = .vNull := by
  rw [apply_manipulations_eq, if_pos h]

theorem pipeline_result_cases {ms : List Manipulator} {value : Value}
    {sqlType : String} {r : Rng}
    (h : (rollFired (nullApplicable ms sqlType) r).1 = []) :
    ((rollFired (nonNullApplicable ms sqlType)
        (rollFired (nullApplicable ms sqlType) r).2).1 = [] ∧
      (apply_manipulations ms value sqlType r).1 = value)
    ∨
    (∃ m ∈ nonNullApplicable ms sqlType,
      (apply_manipulations ms value sqlType r).1 = applyManip m value) := by
  rw [apply_manipulations_eq, if_neg (by simp [h])]
  rcases helig : (rollFired (nonNullApplicable ms sqlType)
      (rollFired (nullApplicable ms sqlType) r).2).1 with _ | ⟨e, es⟩
  · left
    exact ⟨rfl, rfl⟩
  · right
    refine ⟨(pyChoice (e :: es) e (rollFired (nonNullApplicable ms sqlType)
        (rollFired (nullApplicable ms sqlType) r).2).2).1, ?_, rfl⟩
    have hmem : (pyChoice (e :: es) e (rollFired (nonNullApplicable ms sqlType)
        (rollFired (nullApplicable ms sqlType) r).2).2).1 ∈ e :: es :=
      pyChoice_mem (by simp) e _
    refine rollFired_subset (r := (rollFired (nullApplicable ms sqlType) r).2) _ ?_
    rw [helig]
    exact hmem

theorem pipeline_unchanged_of_zero {ms : List Manipulator} {value : Value}
    {sqlType : String} {r : Rng}
    (h0 : ∀ m ∈ ms, m.probability = 0) (hge : ∀ n, 0 ≤ r.floats n) :
    (apply_manipulations ms value sqlType r).1 = value := by
  have hsub1 : ∀ m ∈ nullApplicable ms sqlType, m ∈ ms := fun m hm =>
    List.mem_of_mem_filter (List.mem_of_mem_filter hm)
  have hnull : (rollFired (nullApplicable ms sqlType) r).1 = [] :=
    rollFired_empty_of_prob_zero (fun m hm => h0 m (hsub1 m hm)) hge
  have hge2 : ∀ n, 0 ≤ (rollFired (nullApplicable ms sqlType) r).2.floats n := by
    rw [rollFired_floats]; exact hge
  have hsub2 : ∀ m ∈ nonNullApplicable ms sqlType, m ∈ ms := fun m hm =>
    List.mem_of_mem_filter (List.mem_of_mem_filter hm)
  have helig : (rollFired (nonNullApplicable ms sqlType)
      (rollFired (nullApplicable ms sqlType) r).2).1 = [] :=
    rollFired_empty_of_prob_zero (fun m hm => h0 m (hsub2 m hm)) hge2
  rw [apply_manipulations_eq, if_neg (by simp [hnull]), helig]

/-- A concrete random state for witnesses: every float draw is `1/2`,
every index draw is `0`. -/
def rngHalf : Rng := ⟨fun _ => 1/2, fun _ => 0, 0, 0⟩

/-- C2: for every raw value, category and manipulator configuration, if any
applicable NULL manipulator's trigger fires, `apply_manipulations` returns
`None` immediately and no other transform is applied; in particular an
applicable NULL manipulator with trigger probability `1.0` forces `None`
on every call (float draws lie in `[0,1)`), whatever the other
manipulators are. -/
theorem c2_null_override :
    (∀ (ms : List Manipulator) (value : Value) (sqlType : String) (r : Rng),
        (rollFired (nullApplicable ms sqlType) r).1 ≠ [] →
        (apply_manipulations ms value sqlType r).1 = .vNull)
    ∧
    (∀ (ms : List Manipulator) (value : Value) (sqlType : String) (r : Rng),
        (∀ n, r.floats n < 1) →
        (∃ m ∈ ms, m.kind = .nullM ∧ can_apply_to_type m sqlType ∧ m.probability = 1) →
        (apply_manipulations ms value sqlType r).1 = .vNull) := by
  constructor
  · intro ms value sqlType r h
    exact pipeline_null_of_fired h
  · intro ms value sqlType r hlt ⟨m, hm, hknd, happ, hp⟩
    have hmemNA : m ∈ nullApplicable ms sqlType := by
      unfold nullApplicable
      refine List.mem_filter.mpr ⟨List.mem_filter.mpr ⟨hm, ?_⟩, ?_⟩
      · simp [happ]
      · simp [hknd]
    have hfired : m ∈ (rollFired (nullApplicable ms sqlType) r).1 :=
      rollFired_mem_of_prob_one hlt m hmemNA hp
    exact pipeline_null_of_fired (List.ne_nil_of_mem hfired)

/-- Witness for C2 at a concrete input: a probability-1 NULL manipulator
next to an uppercase manipulator forces `None` on the value `"John Smith"`
under the concrete random state `rngHalf`. -/
theorem c2_null_override_witness :
    (apply_manipulations [⟨.nullM, 1, MParams.empty⟩, ⟨.uppercaseM, 1, MParams.empty⟩]
      (.vStr "John Smith") "TEXT" rngHalf).1 = .vNull :=
  c2_null_override.2 _ _ _ _ (fun _ => by norm_num [rngHalf])
    ⟨⟨.nullM, 1, MParams.empty⟩, by simp, rfl, rfl, rfl⟩

/-- C3: when no applicable NULL manipulator fires, at most one non-NULL
transform is applied: if the fired subset of the applicable non-NULL
manipulators is empty the raw value is returned unchanged, and if it is
non-empty the result is `applyManip sel` for the single manipulator `sel`
drawn by one index draw from that fired subset (so the applied manipulator
is a member of the fired subset); and with every trigger probability `0.0`
(float draws nonnegative), `apply_manipulations` returns the raw value
unchanged on every call. -/
theorem c3_single_transform :
    (∀ (ms : List Manipulator) (value : Value) (sqlType : String) (r : Rng),
        (∀ m ∈ ms, m.probability = 0) → (∀ n, 0 ≤ r.floats n) →
        (apply_manipulations ms value sqlType r).1 = value)
    ∧
    (∀ (ms : List Manipulator) (value : Value) (sqlType : String) (r : Rng),
        (rollFired (nullApplicable ms sqlType) r).1 = [] →
        ((rollFired (nonNullApplicable ms sqlType)
            (rollFired (nullApplicable ms sqlType) r).2).1 = [] →
          (apply_manipulations ms value sqlType r).1 = value) ∧
        (∀ (e : Manipulator) (es : List Manipulator),
          (rollFired (nonNullApplicable ms sqlType)
              (rollFired (nullApplicable ms sqlType) r).2).1 = e :: es →
          (pyChoice (e :: es) e (rollFired (nonNullApplicable ms sqlType)
              (rollFired (nullApplicable ms sqlType) r).2).2).1 ∈ e :: es ∧
          (apply_manipulations ms value sqlType r).1
            = applyManip (pyChoice (e :: es) e (rollFired (nonNullApplicable ms sqlType)
                (rollFired (nullApplicable ms sqlType) r).2).2).1 value)) := by
  refine ⟨fun ms value sqlType r h0 hge => pipeline_unchanged_of_zero h0 hge,
          fun ms value sqlType r h => ⟨?_, ?_⟩⟩
  · intro hemp
    rw [apply_manipulations_eq, if_neg (by simp [h]), hemp]
  · intro e es hcons
    refine ⟨pyChoice_mem (by simp) e _, ?_⟩
    rw [apply_manipulations_eq, if_neg (by simp [h]), hcons]

unseal Rat.mul Rat.inv in
/-- Witness for C3 at concrete inputs: an all-zero-probability manipulator
set leaves `"John Smith"` unchanged under `rngHalf`; and with a single
probability-1 uppercase manipulator under `rngHalf`, the one selected
manipulator is a member of the fired subset and the pipeline result is its
transform of the raw value. -/
theorem c3_single_transform_witness :
    (apply_manipulations [⟨.nullM, 0, MParams.empty⟩, ⟨.uppercaseM, 0, MParams.empty⟩]
        (.vStr "John Smith") "TEXT" rngHalf).1 = .vStr "John Smith" ∧
      ((pyChoice [⟨.uppercaseM, 1, MParams.empty⟩] ⟨.uppercaseM, 1, MParams.empty⟩
            (rollFired (nonNullApplicable [⟨.uppercaseM, 1, MParams.empty⟩] "TEXT")
              (rollFired (nullApplicable [⟨.uppercaseM, 1, MParams.empty⟩] "TEXT")
                rngHalf).2).2).1
          ∈ [(⟨.uppercaseM, 1, MParams.empty⟩ : Manipulator)] ∧
        (apply_manipulations [⟨.uppercaseM, 1, MParams.empty⟩] (.vStr "John Smith")
            "TEXT" rngHalf).1
          = applyManip (pyChoice [⟨.uppercaseM, 1, MParams.empty⟩]
              ⟨.uppercaseM, 1, MParams.empty⟩
              (rollFired (nonNullApplicable [⟨.uppercaseM, 1, MParams.empty⟩] "TEXT")
                (rollFired (nullApplicable [⟨.uppercaseM, 1, MParams.empty⟩] "TEXT")
                  rngHalf).2).2).1 (.vStr "John Smith")) := by
  constructor
  · exact c3_single_transform.1 _ _ _ _ (by decide) (fun _ => by norm_num [rngHalf])
  · have h1 : (rollFired (nullApplicable
        [(⟨.uppercaseM, 1, MParams.empty⟩ : Manipulator)] "TEXT") rngHalf).1 = [] := rfl
    have h2 : (rollFired (nonNullApplicable
          [(⟨.uppercaseM, 1, MParams.empty⟩ : Manipulator)] "TEXT")
        (rollFired (nullApplicable
          [(⟨.uppercaseM, 1, MParams.empty⟩ : Manipulator)] "TEXT") rngHalf).2).1
        = [⟨.uppercaseM, 1, MParams.empty⟩] := rfl
    exact (c3_single_transform.2 [⟨.uppercaseM, 1, MParams.empty⟩] (.vStr "John Smith")
      "TEXT" rngHalf h1).2 ⟨.uppercaseM, 1, MParams.empty⟩ [] h2

/-- C9: for a non-`None` raw value, `apply_manipulations` returns `None`
iff some applicable NULL manipulator's roll fired: none of the non-NULL
transforms of `manipulators.py` maps a non-`None` value to `None`.  (The
hypothesis excluding `trashM` restricts the statement to the manipulator
classes actually defined in `manipulators.py`.) -/
theorem c9_null_iff_null_fired :
    ∀ (ms : List Manipulator) (value : Value) (sqlType : String) (r : Rng),
      value ≠ .vNull → (∀ m ∈ ms, m.kind ≠ .trashM) →
      ((apply_manipulations ms value sqlType r).1 = .vNull ↔
        (rollFired (nullApplicable ms sqlType) r).1 ≠ []) := by
  intro ms value sqlType r hv _htrash
  constructor
  · intro hres
    by_contra hempty
    rcases @pipeline_result_cases ms value sqlType r hempty with ⟨_, hval⟩ | ⟨m, hm, hval⟩
    · rw [hval] at hres
      exact hv hres
    · have hknd : m.kind ≠ .nullM := by
        unfold nonNullApplicable at hm
        have := (List.mem_filter.mp hm).2
        simpa using this
      rw [hval] at hres
      exact applyManip_ne_null hv hknd hres
  · intro h
    exact pipeline_null_of_fired h

/-- Witness for C9 at a concrete input: with a probability-1 NULL
manipulator and `rngHalf`, the pipeline nulls the value and the applicable
NULL roll has indeed fired. -/
theorem c9_null_iff_null_fired_witness :
    (apply_manipulations [⟨.nullM, 1, MParams.empty⟩] (.vStr "x") "TEXT" rngHalf).1 = .vNull ↔
      (rollFired (nullApplicable [⟨.nullM, 1, MParams.empty⟩] "TEXT") rngHalf).1 ≠ [] :=
  c9_null_iff_null_fired _ _ _ _ (by decide) (by decide)

theorem factory_mem_iff (pairs : List (Manipulator × Rat)) (r : Rng) (m : Manipulator) :
    m ∈ (ManipulatorFactory.create pairs r).1 ↔
      ∃ i, ∃ h : i < pairs.length,
        (pairs.get ⟨i, h⟩).1 = m ∧ r.floats (r.fpos + i) < (pairs.get ⟨i, h⟩).2 := by
  induction pairs generalizing r with
  | nil => simp [ManipulatorFactory.create]
  | cons p rest ih =>
      unfold ManipulatorFactory.create
      simp only [Rng.nextFloat]
      by_cases hx : r.floats r.fpos < p.2
      · rw [if_pos hx]
        simp only [List.mem_cons]
        constructor
        · rintro (rfl | hmem)
          · exact ⟨0, by simp, rfl, by simpa using hx⟩
          · obtain ⟨i, h, hget, hf⟩ := (ih _).mp hmem
            refine ⟨i + 1, by simpa using h, hget, ?_⟩
            have : r.fpos + (i + 1) = r.fpos + 1 + i := by omega
            rw [this]
            exact hf
        · rintro ⟨i, h, hget, hf⟩
          cases i with
          | zero => exact Or.inl hget.symm
          | succ j =>
              refine Or.inr ((ih _).mpr ⟨j, by simpa using h, hget, ?_⟩)
              have : r.fpos + 1 + j = r.fpos + (j + 1) := by omega
              rw [this]
              exact hf
      · rw [if_neg hx]
        constructor
        · intro hmem
          obtain ⟨i, h, hget, hf⟩ := (ih _).mp hmem
          refine ⟨i + 1, by simpa using h, hget, ?_⟩
          have : r.fpos + (i + 1) = r.fpos + 1 + i := by omega
          rw [this]
          exact hf
        · rintro ⟨i, h, hget, hf⟩
          cases i with
          | zero =>
              simp only [Nat.add_zero] at hf
              exact absurd hf (by simpa using hx)
          | succ j =>
              refine (ih _).mpr ⟨j, by simpa using h, hget, ?_⟩
              have : r.fpos + 1 + j = r.fpos + (j + 1) := by omega
              rw [this]
              exact hf

/-- A concrete random state whose float draws are all `0`. -/
def rngZero : Rng := ⟨fun _ => 0, fun _ => 0, 0, 0⟩

/-- A concrete random state whose float draws are all `9/10`. -/
def rngNine : Rng := ⟨fun _ => 9/10, fun _ => 0, 0, 0⟩

/-- C10: `ManipulatorFactory.create` samples the attached manipulator set
at construction time — a candidate is in the result iff its own
construction-time draw falls below its paired inclusion probability; in
`create_test_manipulator` the NULL manipulator's pair probability is 0.75,
so it is attached iff the first construction draw is below `3/4`; and two
constructions under different draws yield different manipulator sets. -/
theorem c10_factory_sampling :
    (∀ (pairs : List (Manipulator × Rat)) (r : Rng) (m : Manipulator),
        m ∈ (ManipulatorFactory.create pairs r).1 ↔
          ∃ i, ∃ h : i < pairs.length,
            (pairs.get ⟨i, h⟩).1 = m ∧ r.floats (r.fpos + i) < (pairs.get ⟨i, h⟩).2)
    ∧
    (∀ r : Rng, nullManip03 ∈ (create_test_manipulator r).1 ↔ r.floats r.fpos < 3/4)
    ∧
    (create_test_manipulator rngZero).1 ≠ (create_test_manipulator rngNine).1 := by
  have hiff : ∀ r : Rng,
      nullManip03 ∈ (create_test_manipulator r).1 ↔ r.floats r.fpos < 3/4 := by
    intro r
    unfold create_test_manipulator
    rw [factory_mem_iff]
    constructor
    · rintro ⟨i, h, hget, hf⟩
      have h4 : i < 4 := by simpa using h
      interval_cases i
      · simpa using hf
      · rw [show ([(nullManip03, (3:ℚ) / 4), (trashManip03, 1), (upperManip01, 1),
            (lowerManip005, 1)].get ⟨1, h⟩).1 = trashManip03 from rfl] at hget
        exact absurd hget (by decide)
      · rw [show ([(nullManip03, (3:ℚ) / 4), (trashManip03, 1), (upperManip01, 1),
            (lowerManip005, 1)].get ⟨2, h⟩).1 = upperManip01 from rfl] at hget
        exact absurd hget (by decide)
      · rw [show ([(nullManip03, (3:ℚ) / 4), (trashManip03, 1), (upperManip01, 1),
            (lowerManip005, 1)].get ⟨3, h⟩).1 = lowerManip005 from rfl] at hget
        exact absurd hget (by decide)
    · intro h
      exact ⟨0, by norm_num, rfl, by simpa using h⟩
  refine ⟨factory_mem_iff, hiff, ?_⟩
  intro heq
  have hz : nullManip03 ∈ (create_test_manipulator rngZero).1 :=
    (hiff rngZero).mpr (by norm_num [rngZero])
  have hn : nullManip03 ∉ (create_test_manipulator rngNine).1 := by
    intro hmem
    have := (hiff rngNine).mp hmem
    norm_num [rngNine] at this
  exact hn (heq ▸ hz)

/-! ## Character-set closure of the name mutator (claim C7) -/

/-- A SQL-identifier character per the spec: `[A-Za-z0-9_]`. -/
def isIdentChar (c : Char) : Bool :=
  ('a' ≤ c && c ≤ 'z') || ('A' ≤ c && c ≤ 'Z') || ('0' ≤ c && c ≤ '9') || c = '_'

theorem isIdentChar_lower : ∀ c ∈ asciiLowercase, isIdentChar c = true := by decide

theorem isIdentChar_digit : ∀ c ∈ asciiDigits, isIdentChar c = true := by decide

theorem getD_mem_of_lt {l : List α} {n : Nat} (h : n < l.length) (d : α) :
    l.getD n d ∈ l := by
  rw [List.getD_eq_getElem l d h]
  exact List.getElem_mem _

theorem set_closure {P : Char → Bool} {l : List Char} (hl : ∀ c ∈ l, P c = true)
    {b : Char} (hb : P b = true) {n : Nat} : ∀ c ∈ l.set n b, P c = true :=
  fun c hc => (List.mem_or_eq_of_mem_set hc).elim (hl c) (fun h => h ▸ hb)

theorem insertIdx_closure {P : Char → Bool} {l : List Char} (hl : ∀ c ∈ l, P c = true)
    {b : Char} (hb : P b = true) {n : Nat} (hn : n ≤ l.length) :
    ∀ c ∈ l.insertIdx n b, P c = true := by
  intro c hc
  rcases (List.mem_insertIdx hn).mp hc with rfl | h
  · exact hb
  · exact hl c h

theorem eraseIdx_closure {P : Char → Bool} {l : List Char} (hl : ∀ c ∈ l, P c = true)
    {n : Nat} : ∀ c ∈ l.eraseIdx n, P c = true :=
  fun c hc => hl c ((List.eraseIdx_sublist l n).subset hc)

theorem flip_edit_charset {l : List Char} (hl : ∀ c ∈ l, isIdentChar c = true)
    (hlen : 1 < l.length) (r : Rng) :
    ∀ c ∈ (flip_edit l r).1, isIdentChar c = true := by
  unfold flip_edit
  simp only [pyRandint, Rng.nextNat]
  have hmod := Nat.mod_lt (r.nats r.npos) (y := l.length - 2 - 0 + 1) (by omega)
  refine set_closure (set_closure hl ?_) ?_
  · exact hl _ (getD_mem_of_lt (by omega) ' ')
  · exact hl _ (getD_mem_of_lt (by omega) ' ')

theorem add_edit_charset {l : List Char} (hl : ∀ c ∈ l, isIdentChar c = true)
    (r : Rng) : ∀ c ∈ (add_edit l r).1, isIdentChar c = true := by
  unfold add_edit
  simp only [pyRandint, pyChoice, Rng.nextNat]
  have hmod := Nat.mod_lt (r.nats r.npos) (y := l.length + 1) (by omega)
  have hn : 0 + r.nats r.npos % (l.length - 0 + 1) ≤ l.length := by
    simpa using Nat.lt_succ_iff.mp (by simpa using hmod)
  split_ifs
  · exact insertIdx_closure hl
      (isIdentChar_lower _ (getD_mem_of_lt (Nat.mod_lt _ (by decide)) 'a')) hn
  · exact insertIdx_closure hl
      (isIdentChar_digit _ (getD_mem_of_lt (Nat.mod_lt _ (by decide)) '0')) hn
  · exact insertIdx_closure hl (by decide) hn

theorem remove_edit_charset {l : List Char} (hl : ∀ c ∈ l, isIdentChar c = true)
    (r : Rng) : ∀ c ∈ (remove_edit l r).1, isIdentChar c = true := by
  unfold remove_edit
  simp only [pyRandint, Rng.nextNat]
  exact eraseIdx_closure hl

theorem replace_edit_charset {l : List Char} (hl : ∀ c ∈ l, isIdentChar c = true)
    (r : Rng) : ∀ c ∈ (replace_edit l r).1, isIdentChar c = true := by
  unfold replace_edit
  simp only [pyRandint, pyChoice, Rng.nextNat]
  split_ifs
  · exact set_closure hl (isIdentChar_lower _ (getD_mem_of_lt (Nat.mod_lt _ (by decide)) 'a'))
  · exact set_closure hl (isIdentChar_digit _ (getD_mem_of_lt (Nat.mod_lt _ (by decide)) '0'))

theorem apply_modification_charset (name : String) (mtype : String) (r : Rng)
    (h : ∀ c ∈ name.data, isIdentChar c = true) :
    ∀ c ∈ ((apply_modification name mtype r).1).data, isIdentChar c = true := by
  unfold apply_modification
  split_ifs with h0 h1 h2 h3 h4
  · exact h
  · have hlen : 1 < name.data.length := by
      rcases Bool.and_eq_true_iff.mp h1 with ⟨_, hl⟩
      simpa using hl
    exact flip_edit_charset h hlen r
  · exact add_edit_charset h r
  · exact remove_edit_charset h r
  · exact replace_edit_charset h r
  · exact h

theorem modification_rounds_charset (cfg : ColumnNameConfig) :
    ∀ (k : Nat) (s : String) (r : Rng), (∀ c ∈ s.data, isIdentChar c = true) →
      ∀ c ∈ ((modification_rounds cfg k s r).1).data, isIdentChar c = true := by
  intro k
  induction k with
  | zero => intro s r h; exact h
  | succ n ih =>
      intro s r h
      exact ih _ _ (apply_modification_charset _ _ _ h)

theorem modify_column_name_charset (cfg : ColumnNameConfig) (name : String) (r : Rng)
    (h : ∀ c ∈ name.data, isIdentChar c = true) :
    ∀ c ∈ ((modify_column_name cfg name r).1).data, isIdentChar c = true := by
  unfold modify_column_name
  split_ifs with h0
  · exact h
  · exact modification_rounds_charset cfg _ _ _ h

/-- C7: for a base name over `[A-Za-z0-9_]` and any draw sequence, every
character of the mutated name is again in `[A-Za-z0-9_]`: a single edit of
any kind preserves the character class (flip and remove introduce nothing;
add and replace only insert or substitute lowercase letters, digits or
underscore), and so does the whole `_modify_column_name` edit loop. -/
theorem c7_mutation_charset :
    (∀ (name mtype : String) (r : Rng),
        (∀ c ∈ name.data, isIdentChar c = true) →
        ∀ c ∈ ((apply_modification name mtype r).1).data, isIdentChar c = true)
    ∧
    (∀ (cfg : ColumnNameConfig) (name : String) (r : Rng),
        (∀ c ∈ name.data, isIdentChar c = true) →
        ∀ c ∈ ((modify_column_name cfg name r).1).data, isIdentChar c = true) :=
  ⟨apply_modification_charset, modify_column_name_charset⟩

/-- Witness for C7 at a concrete input: mutating `"age"` under the
configured defaults and the concrete random state `rngHalf` yields a name
whose characters all lie in `[A-Za-z0-9_]`. -/
theorem c7_mutation_charset_witness :
    ∀ c ∈ ((modify_column_name CONFIG_COLUMN_NAME "age" rngHalf).1).data,
      isIdentChar c = true :=
  c7_mutation_charset.2 CONFIG_COLUMN_NAME "age" rngHalf (by decide)

/-! ## The weighted selector (claims C1 and C5) -/

theorem get_random_generator_weighted_eq (w : TypeWeights) (catalog : List GenSpec)
    (r : Rng) :
    get_random_generator_weighted w catalog r =
      (match weighted_types w with
      | [] => .error "IndexError: Cannot choose from an empty sequence"
      | t :: ts =>
          match (get_generators_by_type catalog (pyChoice (t :: ts) t r).1
              (pyChoice (t :: ts) t r).2).1 with
          | [] => .error ("No generators found for SQL type: " ++ (pyChoice (t :: ts) t r).1)
          | g0 :: gs =>
              .ok ((pyChoice (g0 :: gs) g0 (get_generators_by_type catalog
                      (pyChoice (t :: ts) t r).1 (pyChoice (t :: ts) t r).2).2).1,
                   (pyChoice (g0 :: gs) g0 (get_generators_by_type catalog
                      (pyChoice (t :: ts) t r).1 (pyChoice (t :: ts) t r).2).2).2)) := by
  unfold get_random_generator_weighted
  cases weighted_types w with
  | nil => rfl
  | cons t ts => rfl

theorem instantiate_all_spec_mem :
    ∀ (catalog : List GenSpec) (r : Rng) (gi : GenInst),
      gi ∈ (instantiate_all catalog r).1 → gi.spec ∈ catalog := by
  intro catalog
  induction catalog with
  | nil => intro r gi h; exact absurd h (by simp [instantiate_all])
  | cons g rest ih =>
      intro r gi h
      unfold instantiate_all at h
      simp only [instantiate_generator] at h
      rcases List.mem_cons.mp h with rfl | h'
      · exact List.mem_cons_self _ _
      · exact List.mem_cons_of_mem _ (ih _ _ h')

theorem mem_get_generators_by_type {catalog : List GenSpec} {sqlType : String}
    {r : Rng} {gi : GenInst} (h : gi ∈ (get_generators_by_type catalog sqlType r).1) :
    gi.spec ∈ catalog ∧ gi.spec.sqlType = sqlType := by
  unfold get_generators_by_type at h
  have hm := List.mem_filter.mp h
  exact ⟨instantiate_all_spec_mem _ _ _ hm.1, by simpa using hm.2⟩

unseal Rat.mul Rat.inv in
/-- Counterexample for C1: the code builds the ballot with `int(weight*10)`
(truncation), not `round(weight*K)`: at TEXT weight `0.58` the ballot holds
5 TEXT tickets while `round(0.58 * 10) = 6`. -/
theorem c1_counterexample :
    (weighted_types ⟨58/100, 1, 1⟩).count "TEXT" = 5 ∧
      round (((58 : Rat)/100) * 10) = 6 := by
  constructor
  · rfl
  · norm_num [round_eq]

/-- C1 (amended): each category appears in the virtual ballot exactly
`int(weight * 10)` times — Python truncation toward zero, clamped at 0 —
in the order TEXT, INTEGER, REAL; one ticket is drawn by index from the
ballot and the returned generator is a registered one of the winning
ticket's category. -/
theorem c1_ballot_truncation :
    (∀ w : TypeWeights,
        (weighted_types w).count "TEXT" = (ratTrunc (w.text * 10)).toNat ∧
        (weighted_types w).count "INTEGER" = (ratTrunc (w.integer * 10)).toNat ∧
        (weighted_types w).count "REAL" = (ratTrunc (w.real * 10)).toNat)
    ∧
    (∀ (w : TypeWeights) (catalog : List GenSpec) (r : Rng) (g : GenInst) (r' : Rng),
        get_random_generator_weighted w catalog r = .ok (g, r') →
        g.spec ∈ catalog ∧ g.spec.sqlType ∈ weighted_types w) := by
  constructor
  · intro w
    unfold weighted_types
    refine ⟨?_, ?_, ?_⟩ <;> simp [List.count_append, List.count_replicate]
  · intro w catalog r g r' h
    rw [get_random_generator_weighted_eq] at h
    split at h
    · exact Except.noConfusion h
    · rename_i t ts hw
      split at h
      · exact Except.noConfusion h
      · rename_i g0 gs hg
        injection h with h2
        injection h2 with hsel hr
        subst hsel
        have hmem : (pyChoice (g0 :: gs) g0 (get_generators_by_type catalog
            (pyChoice (t :: ts) t r).1 (pyChoice (t :: ts) t r).2).2).1 ∈
            (get_generators_by_type catalog (pyChoice (t :: ts) t r).1
              (pyChoice (t :: ts) t r).2).1 := by
          rw [hg]
          exact pyChoice_mem (by simp) g0 _
        obtain ⟨hcat, htype⟩ := mem_get_generators_by_type hmem
        refine ⟨hcat, ?_⟩
        rw [htype, hw]
        exact pyChoice_mem (by simp) t r

theorem grw_error_of_no_gens {w : TypeWeights} {catalog : List GenSpec} {r : Rng}
    {t : String} {ts : List String} (hw : weighted_types w = t :: ts)
    (hg : (get_generators_by_type catalog (pyChoice (t :: ts) t r).1
        (pyChoice (t :: ts) t r).2).1 = []) :
    get_random_generator_weighted w catalog r =
      .error ("No generators found for SQL type: " ++ (pyChoice (t :: ts) t r).1) := by
  rw [get_random_generator_weighted_eq, hw]
  simp only [hg]

theorem grw_ok_of_gens {w : TypeWeights} {catalog : List GenSpec} {r : Rng}
    {t : String} {ts : List String} (hw : weighted_types w = t :: ts)
    {g0 : GenInst} {gs : List GenInst}
    (hg : (get_generators_by_type catalog (pyChoice (t :: ts) t r).1
        (pyChoice (t :: ts) t r).2).1 = g0 :: gs) :
    get_random_generator_weighted w catalog r =
      .ok ((pyChoice (g0 :: gs) g0 (get_generators_by_type catalog
              (pyChoice (t :: ts) t r).1 (pyChoice (t :: ts) t r).2).2).1,
           (pyChoice (g0 :: gs) g0 (get_generators_by_type catalog
              (pyChoice (t :: ts) t r).1 (pyChoice (t :: ts) t r).2).2).2) := by
  rw [get_random_generator_weighted_eq, hw]
  simp only [hg]

/-- C5 (amended): the `NoGeneratorForCategory` condition is not checked at
startup: `get_random_generator_weighted` raises the
`No generators found for SQL type` error exactly when the drawn category
has zero registered variants, i.e. at generation time, at the moment that
category wins a selector draw. -/
theorem c5_error_at_generation :
    ∀ (w : TypeWeights) (catalog : List GenSpec) (r : Rng) (t : String)
      (ts : List String),
      weighted_types w = t :: ts →
      ((∃ e, get_random_generator_weighted w catalog r = .error e) ↔
        (get_generators_by_type catalog (pyChoice (t :: ts) t r).1
          (pyChoice (t :: ts) t r).2).1 = []) := by
  intro w catalog r t ts hw
  constructor
  · rintro ⟨e, he⟩
    rcases hg : (get_generators_by_type catalog (pyChoice (t :: ts) t r).1
        (pyChoice (t :: ts) t r).2).1 with _ | ⟨g0, gs⟩
    · rfl
    · rw [grw_ok_of_gens hw hg] at he
      exact Except.noConfusion he
  · intro hg
    exact ⟨_, grw_error_of_no_gens hw hg⟩

/-- A one-generator catalog with TEXT variants only: the INTEGER category
has zero registered variants. -/
def catalogNoInteger : List GenSpec := [⟨"name", "TEXT", ["name"]⟩]

/-- A concrete random state driving the C5 counterexample run: the 14th
index draw (the ballot draw of the second table's first column) picks an
INTEGER ticket; every other index draw is 0 and every float draw 1/2. -/
def rngC5 : Rng := ⟨fun _ => 1/2, fun n => if n = 13 then 10 else 0, 0, 0⟩

unseal Rat.mul Rat.inv in
/-- Counterexample for C5: with equal weights `1.0` on all three
categories and a registry holding TEXT variants only (so INTEGER has
positive weight and zero variants), the database run builds and completes
one whole table before failing with the `No generators found for SQL type`
error during the second table's schema draw — the failure is not surfaced
at startup before any table is built. -/
theorem c5_counterexample :
    ((generate_database ⟨1, 1, 1⟩ catalogNoInteger CONFIG_COLUMN_NAME 6 8 1 1 rngC5).1).length = 1 ∧
    (generate_database ⟨1, 1, 1⟩ catalogNoInteger CONFIG_COLUMN_NAME 6 8 1 1 rngC5).2.1 =
      some "No generators found for SQL type: INTEGER" := by
  constructor
  · rfl
  · rfl

unseal Rat.mul Rat.inv in
/-- Witness for C5's amended theorem at a concrete input: for the
all-ones weights the ballot is non-empty, and with `rngC5`'s 14th index
draw the selector errors exactly because the INTEGER category has no
variants in `catalogNoInteger`. -/
theorem c5_error_at_generation_witness :
    (∃ e, get_random_generator_weighted ⟨1, 1, 1⟩ catalogNoInteger
        ⟨fun _ => 1/2, fun _ => 10, 0, 0⟩ = .error e) ↔
      (get_generators_by_type catalogNoInteger
        (pyChoice ("TEXT" :: (List.replicate 9 "TEXT" ++ List.replicate 10 "INTEGER"
            ++ List.replicate 10 "REAL")) "TEXT" ⟨fun _ => 1/2, fun _ => 10, 0, 0⟩).1
        (pyChoice ("TEXT" :: (List.replicate 9 "TEXT" ++ List.replicate 10 "INTEGER"
            ++ List.replicate 10 "REAL")) "TEXT" ⟨fun _ => 1/2, fun _ => 10, 0, 0⟩).2).1 = [] :=
  c5_error_at_generation ⟨1, 1, 1⟩ catalogNoInteger ⟨fun _ => 1/2, fun _ => 10, 0, 0⟩
    "TEXT" (List.replicate 9 "TEXT" ++ List.replicate 10 "INTEGER" ++ List.replicate 10 "REAL")
    (by rfl)

unseal Rat.mul Rat.inv in
/-- Witness for C1's amended theorem at a concrete input: a successful
draw from a one-generator catalog returns a registered generator whose
category is a ballot ticket. -/
theorem c1_ballot_truncation_witness :
    (⟨"name", "TEXT", ["name"]⟩ : GenSpec) ∈ catalogNoInteger ∧
      "TEXT" ∈ weighted_types ⟨1, 1, 1⟩ :=
  c1_ballot_truncation.2 ⟨1, 1, 1⟩ catalogNoInteger rngHalf
    ⟨⟨"name", "TEXT", ["name"]⟩, [nullManip03, trashManip03, upperManip01, lowerManip005]⟩
    { rngHalf with fpos := 4, npos := 2 } (by rfl)

/-! ## The collision-resolution loop and schema uniqueness (claims C6, C4) -/

theorem ensure_unique_name_notin (used : List String)
    (nameDraw : Rng → String × Rng) (r : Rng) :
    (ensure_unique_name used nameDraw r).1 ∉ used := by
  show (if (nameDraw r).1 ∈ used then collision_loop used nameDraw 1 (nameDraw r).2
      else ((nameDraw r).1, (nameDraw r).2)).1 ∉ used
  by_cases h : (nameDraw r).1 ∈ used
  · rw [if_pos h]
    unfold collision_loop
    exact collision_go_notin used nameDraw (collision_fuel used 1) 1 _
      (by unfold collision_fuel; omega)
  · rw [if_neg h]
    exact h

/-- Modelled from the spec: the claim's guarded collision loop — re-draw
with an incrementing numeric suffix up to an iteration cap `cap`, then fail
loudly with `NameSpaceExhausted`.  Used only to exhibit that the code's
loop (`ensure_unique_name`, which has no cap and no failure path) does not
implement this behaviour. -/
def capped_collision_go (used : List String) (nameDraw : Rng → String × Rng) :
    Nat → Nat → Rng → Except String (String × Rng)
  | 0, _, _ => .error "NameSpaceExhausted"
  | fuel + 1, counter, r =>
      if ((nameDraw r).1 ++ "_" ++ decStr counter) ∈ used then
        capped_collision_go used nameDraw fuel (counter + 1) (nameDraw r).2
      else .ok ((nameDraw r).1 ++ "_" ++ decStr counter, (nameDraw r).2)

/-- Modelled from the spec: the capped loop with pre-check, allowing `cap`
suffixing iterations before failing with `NameSpaceExhausted`. -/
def capped_collision_loop (cap : Nat) (used : List String)
    (nameDraw : Rng → String × Rng) (r : Rng) : Except String (String × Rng) :=
  let (col, r1) := nameDraw r
  if col ∈ used then capped_collision_go used nameDraw cap 1 r1 else .ok (col, r1)

/-- A used-name set forcing 51 collision-loop iterations under the
constant draw `"a"`: the base name and the suffixed names `a_1` … `a_50`. -/
def c6used : List String :=
  "a" :: (List.range 50).map (fun i => "a_" ++ decStr (i + 1))

/-- The constant name draw `"a"`, consuming no randomness. -/
def constDrawA : Rng → String × Rng := fun r => ("a", r)

set_option maxRecDepth 4000 in
/-- Counterexample for C6: the code's collision loop is not guarded by an
iteration cap and never fails with `NameSpaceExhausted`: on a used-name set
that collides for 51 straight iterations, the claim's capped loop (cap 50)
fails with `NameSpaceExhausted`, while the code's loop simply keeps going
and returns the fresh name `a_51`. -/
theorem c6_counterexample :
    capped_collision_loop 50 c6used constDrawA rngHalf = .error "NameSpaceExhausted" ∧
    (ensure_unique_name c6used constDrawA rngHalf).1 = "a_51" ∧
    "a_51" ∉ c6used := by
  refine ⟨rfl, rfl, by decide⟩

/-- C6 (amended): the collision loop has no iteration cap and no
`NameSpaceExhausted` failure path; it nevertheless never loops forever: for
every used-name set and every draw sequence it terminates with a name not
in the used set, because a colliding candidate's numeric suffix equals the
strictly increasing counter, which must leave the finite used set.  The
embedding's fuel is an artifact: every fuel of at least
`collision_fuel used counter` yields the same result. -/
theorem c6_collision_loop_total :
    (∀ (used : List String) (nameDraw : Rng → String × Rng) (r : Rng),
        (ensure_unique_name used nameDraw r).1 ∉ used)
    ∧
    (∀ (used : List String) (nameDraw : Rng → String × Rng) (fuel counter : Nat)
        (r : Rng), maxTrailing used + 2 ≤ fuel + counter →
        collision_go used nameDraw fuel counter r =
          collision_loop used nameDraw counter r) :=
  ⟨ensure_unique_name_notin, fun used nameDraw => collision_go_fuel_sufficient used nameDraw⟩

set_option maxRecDepth 4000 in
/-- Witness for C6 at a concrete input: on `c6used` the loop needs 51
iterations; any fuel from the sufficient bound up yields the same result. -/
theorem c6_collision_loop_total_witness :
    collision_go c6used constDrawA 60 1 rngHalf = collision_loop c6used constDrawA 1 rngHalf :=
  c6_collision_loop_total.2 c6used constDrawA 60 1 rngHalf (by decide)

theorem schema_loop_ok (w : TypeWeights) (catalog : List GenSpec)
    (cfg : ColumnNameConfig) :
    ∀ (k : Nat) (used cols : List String) (defs : List ColumnDef) (r : Rng)
      (cols' : List String) (defs' : List ColumnDef) (r' : Rng),
      schema_loop w catalog cfg k used cols defs r = .ok (cols', defs', r') →
      (∀ d ∈ defs, d.colName ∈ used) →
      (defs.map (fun d => d.colName)).Nodup →
      defs'.length = defs.length + k ∧ (defs'.map (fun d => d.colName)).Nodup ∧
        ∃ tail, defs' = defs ++ tail := by
  intro k
  induction k with
  | zero =>
      intro used cols defs r cols' defs' r' h hin hnd
      unfold schema_loop at h
      injection h with h1
      injection h1 with hcols h2
      injection h2 with hdefs hr
      subst hdefs
      exact ⟨by omega, hnd, [], by simp⟩
  | succ n ih =>
      intro used cols defs r cols' defs' r' h hin hnd
      unfold schema_loop at h
      split at h
      · exact Except.noConfusion h
      · rename_i gen r1 heq
        set colName := (ensure_unique_name used
          (get_random_column_name cfg gen.spec.columnNames) r1).1 with hcol
        have hnew : colName ∉ used := ensure_unique_name_notin _ _ _
        have hin' : ∀ d ∈ defs ++ [(⟨colName, gen.spec.name, some gen⟩ : ColumnDef)],
            d.colName ∈ colName :: used := by
          intro d hd
          rcases List.mem_append.mp hd with hd | hd
          · exact List.mem_cons_of_mem _ (hin d hd)
          · simp only [List.mem_singleton] at hd
            subst hd
            exact List.mem_cons_self _ _
        have hnd' : ((defs ++ [(⟨colName, gen.spec.name, some gen⟩ : ColumnDef)]).map
            (fun d => d.colName)).Nodup := by
          rw [List.map_append]
          rw [List.nodup_append]
          refine ⟨hnd, by simp, ?_⟩
          intro a ha hb
          simp only [List.map_cons, List.map_nil, List.mem_singleton] at hb
          subst hb
          obtain ⟨d, hd, hda⟩ := List.mem_map.mp ha
          exact hnew (hda ▸ hin d hd)
        obtain ⟨hlen, hnd2, tail, htail⟩ := ih _ _ _ _ _ _ _ h hin' hnd'
        rw [List.length_append, List.length_singleton] at hlen
        exact ⟨by omega, hnd2, _, by rw [htail, List.append_assoc]⟩

theorem generate_table_schema_eq (w : TypeWeights) (catalog : List GenSpec)
    (cfg : ColumnNameConfig) (tableName : String) (r : Rng) :
    generate_table_schema w catalog cfg tableName r =
      match schema_loop w catalog cfg ((pyRandint 3 8 r).1 - 1) ["id"]
          ["id INTEGER PRIMARY KEY AUTOINCREMENT"] [idColumnDef] (pyRandint 3 8 r).2 with
      | .error e => .error e
      | .ok (cols, defs, r2) =>
          .ok ("CREATE TABLE " ++ tableName ++ " (" ++ String.intercalate ", " cols ++ ")",
               defs, r2) := rfl

/-- C4: every successful schema build has `num_columns` pairwise-distinct
column names — the identity column `"id"` plus `num_columns - 1` generated
ones (with `num_columns = random.randint(3, 8)`), no generated name ever
colliding with another or with `"id"`. -/
theorem c4_schema_columns :
    ∀ (w : TypeWeights) (catalog : List GenSpec) (cfg : ColumnNameConfig)
      (tableName : String) (r : Rng) (schema : String) (defs : List ColumnDef)
      (r' : Rng),
      generate_table_schema w catalog cfg tableName r = .ok (schema, defs, r') →
      defs.length = 3 + r.nats r.npos % 6 ∧
      (defs.map (fun d => d.colName)).Nodup ∧
      defs.head? = some idColumnDef := by
  intro w catalog cfg tableName r schema defs r' h
  rw [generate_table_schema_eq] at h
  split at h
  · exact Except.noConfusion h
  · rename_i cols0 defs0 r2 heq
    injection h with h1
    injection h1 with hschema h2
    injection h2 with hdefs hr
    subst hdefs
    obtain ⟨hlen, hnd, tail, htail⟩ := schema_loop_ok w catalog cfg _ _ _ _ _ _ _ _ heq
      (by intro d hd; simp only [List.mem_singleton] at hd; subst hd; simp [idColumnDef])
      (by simp)
    refine ⟨?_, hnd, ?_⟩
    · rw [hlen]
      have hnum : (pyRandint 3 8 r).1 = 3 + r.nats r.npos % 6 := by
        simp [pyRandint, Rng.nextNat]
      rw [hnum] at *
      simp
      omega
    · rw [htail]
      simp

/-- The generator instance built from the one-entry catalog
`catalogNoInteger` under the draws of `rngHalf` (all four test manipulators
included). -/
def giName : GenInst :=
  ⟨⟨"name", "TEXT", ["name"]⟩, [nullManip03, trashManip03, upperManip01, lowerManip005]⟩

unseal Rat.mul Rat.inv in
/-- Witness for C4 at a concrete input: the schema built from
`catalogNoInteger` under `rngHalf` has its 3 = `3 + 0 % 6` pairwise
distinct column names, headed by the identity column. -/
theorem c4_schema_columns_witness :
    ([idColumnDef, ⟨"name", "name", some giName⟩,
        ⟨"name_1", "name", some giName⟩] : List ColumnDef).length
        = 3 + rngHalf.nats rngHalf.npos % 6 ∧
    (([idColumnDef, ⟨"name", "name", some giName⟩,
        ⟨"name_1", "name", some giName⟩] : List ColumnDef).map
          (fun d => d.colName)).Nodup ∧
    ([idColumnDef, ⟨"name", "name", some giName⟩,
        ⟨"name_1", "name", some giName⟩] : List ColumnDef).head? = some idColumnDef :=
  c4_schema_columns ⟨1, 1, 1⟩ catalogNoInteger CONFIG_COLUMN_NAME "t" rngHalf
    "CREATE TABLE t (id INTEGER PRIMARY KEY AUTOINCREMENT, name TEXT, name_1 TEXT)"
    [idColumnDef, ⟨"name", "name", some giName⟩, ⟨"name_1", "name", some giName⟩]
    { rngHalf with fpos := 11, npos := 8 } (by rfl)

/-! ## Determinism in the random source (claim C8)

The code has no seed interface; modelled from the spec: the source must
accept an explicit seed, and a seed determines the draw streams, so two
runs with the same seed start from the same streams and positions.
`Rng.AgreeFrom` captures exactly that: the two states have the same
positions and agree on every draw from those positions on (their histories
below the positions may differ arbitrarily).  Each pipeline stage is shown
to read only draws at or after the current position, consuming them in the
code's order, so any two runs over agreeing sources produce identical
outputs. -/

/-- Two random states with equal positions whose streams agree from those
positions on. -/
def Rng.AgreeFrom (r₁ r₂ : Rng) : Prop :=
  r₁.fpos = r₂.fpos ∧ r₁.npos = r₂.npos ∧
  (∀ n, r₁.fpos ≤ n → r₁.floats n = r₂.floats n) ∧
  (∀ n, r₁.npos ≤ n → r₁.nats n = r₂.nats n)

/-- Result agreement for a draw returning a value and the advanced state. -/
def agreePair (p₁ p₂ : α × Rng) : Prop :=
  p₁.1 = p₂.1 ∧ Rng.AgreeFrom p₁.2 p₂.2

theorem nextFloat_agree {r₁ r₂ : Rng} (h : Rng.AgreeFrom r₁ r₂) :
    agreePair r₁.nextFloat r₂.nextFloat := by
  obtain ⟨hf, hn, hfs, hns⟩ := h
  refine ⟨?_, ?_, by simpa using hn, ?_, ?_⟩
  · simpa [Rng.nextFloat, hf] using hfs r₁.fpos (le_refl _)
  · simp [Rng.nextFloat, hf]
  · intro n hn2
    simp only [Rng.nextFloat] at hn2 ⊢
    exact hfs n (by omega)
  · intro n hn2
    simp only [Rng.nextFloat] at hn2 ⊢
    exact hns n hn2

theorem nextNat_agree {r₁ r₂ : Rng} (h : Rng.AgreeFrom r₁ r₂) :
    agreePair r₁.nextNat r₂.nextNat := by
  obtain ⟨hf, hn, hfs, hns⟩ := h
  refine ⟨?_, by simpa using hf, ?_, ?_, ?_⟩
  · simpa [Rng.nextNat, hn] using hns r₁.npos (le_refl _)
  · simp [Rng.nextNat, hn]
  · intro n hn2
    simp only [Rng.nextNat] at hn2 ⊢
    exact hfs n hn2
  · intro n hn2
    simp only [Rng.nextNat] at hn2 ⊢
    exact hns n (by omega)

theorem pyRandint_agree (a b : Nat) {r₁ r₂ : Rng} (h : Rng.AgreeFrom r₁ r₂) :
    agreePair (pyRandint a b r₁) (pyRandint a b r₂) := by
  obtain ⟨he, ha⟩ := nextNat_agree h
  exact ⟨by simp [pyRandint, he], ha⟩

theorem pyChoice_agree (l : List α) (d : α) {r₁ r₂ : Rng} (h : Rng.AgreeFrom r₁ r₂) :
    agreePair (pyChoice l d r₁) (pyChoice l d r₂) := by
  obtain ⟨he, ha⟩ := nextNat_agree h
  exact ⟨by simp [pyChoice, he], ha⟩

theorem flip_edit_eq (l : List Char) (r : Rng) :
    flip_edit l r =
      ((l.set (pyRandint 0 (l.length - 2) r).1
          (l.getD ((pyRandint 0 (l.length - 2) r).1 + 1) ' ')).set
        ((pyRandint 0 (l.length - 2) r).1 + 1)
        (l.getD (pyRandint 0 (l.length - 2) r).1 ' '),
       (pyRandint 0 (l.length - 2) r).2) := rfl

theorem add_edit_eq (l : List Char) (r : Rng) :
    add_edit l r =
      (if (pyChoice ["letter", "digit", "underscore"] "letter"
            (pyRandint 0 l.length r).2).1 == "letter" then
        (l.insertIdx (pyRandint 0 l.length r).1
          (pyChoice asciiLowercase 'a'
            (pyChoice ["letter", "digit", "underscore"] "letter"
              (pyRandint 0 l.length r).2).2).1,
         (pyChoice asciiLowercase 'a'
            (pyChoice ["letter", "digit", "underscore"] "letter"
              (pyRandint 0 l.length r).2).2).2)
      else if (pyChoice ["letter", "digit", "underscore"] "letter"
            (pyRandint 0 l.length r).2).1 == "digit" then
        (l.insertIdx (pyRandint 0 l.length r).1
          (pyChoice asciiDigits '0'
            (pyChoice ["letter", "digit", "underscore"] "letter"
              (pyRandint 0 l.length r).2).2).1,
         (pyChoice asciiDigits '0'
            (pyChoice ["letter", "digit", "underscore"] "letter"
              (pyRandint 0 l.length r).2).2).2)
      else
        (l.insertIdx (pyRandint 0 l.length r).1 '_',
         (pyChoice ["letter", "digit", "underscore"] "letter"
            (pyRandint 0 l.length r).2).2)) := rfl

theorem remove_edit_eq (l : List Char) (r : Rng) :
    remove_edit l r =
      (l.eraseIdx (pyRandint 1 (l.length - 2) r).1, (pyRandint 1 (l.length - 2) r).2) := rfl

theorem replace_edit_eq (l : List Char) (r : Rng) :
    replace_edit l r =
      (if (pyChoice ["letter", "digit"] "letter" (pyRandint 0 (l.length - 1) r).2).1
          == "letter" then
        (l.set (pyRandint 0 (l.length - 1) r).1
          (pyChoice asciiLowercase 'a'
            (pyChoice ["letter", "digit"] "letter" (pyRandint 0 (l.length - 1) r).2).2).1,
         (pyChoice asciiLowercase 'a'
            (pyChoice ["letter", "digit"] "letter" (pyRandint 0 (l.length - 1) r).2).2).2)
      else
        (l.set (pyRandint 0 (l.length - 1) r).1
          (pyChoice asciiDigits '0'
            (pyChoice ["letter", "digit"] "letter" (pyRandint 0 (l.length - 1) r).2).2).1,
         (pyChoice asciiDigits '0'
            (pyChoice ["letter", "digit"] "letter" (pyRandint 0 (l.length - 1) r).2).2).2)) := rfl

theorem flip_edit_agree (l : List Char) {r₁ r₂ : Rng} (h : Rng.AgreeFrom r₁ r₂) :
    agreePair (flip_edit l r₁) (flip_edit l r₂) := by
  obtain ⟨he, ha⟩ := pyRandint_agree 0 (l.length - 2) h
  rw [flip_edit_eq, flip_edit_eq, he]
  exact ⟨rfl, ha⟩

theorem add_edit_agree (l : List Char) {r₁ r₂ : Rng} (h : Rng.AgreeFrom r₁ r₂) :
    agreePair (add_edit l r₁) (add_edit l r₂) := by
  obtain ⟨he, ha⟩ := pyRandint_agree 0 l.length h
  obtain ⟨he2, ha2⟩ := pyChoice_agree ["letter", "digit", "underscore"] "letter" ha
  rw [add_edit_eq, add_edit_eq, he, he2]
  split_ifs
  · obtain ⟨he3, ha3⟩ := pyChoice_agree asciiLowercase 'a' ha2
    rw [he3]
    exact ⟨rfl, ha3⟩
  · obtain ⟨he3, ha3⟩ := pyChoice_agree asciiDigits '0' ha2
    rw [he3]
    exact ⟨rfl, ha3⟩
  · exact ⟨rfl, ha2⟩

theorem remove_edit_agree (l : List Char) {r₁ r₂ : Rng} (h : Rng.AgreeFrom r₁ r₂) :
    agreePair (remove_edit l r₁) (remove_edit l r₂) := by
  obtain ⟨he, ha⟩ := pyRandint_agree 1 (l.length - 2) h
  rw [remove_edit_eq, remove_edit_eq, he]
  exact ⟨rfl, ha⟩

theorem replace_edit_agree (l : List Char) {r₁ r₂ : Rng} (h : Rng.AgreeFrom r₁ r₂) :
    agreePair (replace_edit l r₁) (replace_edit l r₂) := by
  obtain ⟨he, ha⟩ := pyRandint_agree 0 (l.length - 1) h
  obtain ⟨he2, ha2⟩ := pyChoice_agree ["letter", "digit"] "letter" ha
  rw [replace_edit_eq, replace_edit_eq, he, he2]
  split_ifs
  · obtain ⟨he3, ha3⟩ := pyChoice_agree asciiLowercase 'a' ha2
    rw [he3]
    exact ⟨rfl, ha3⟩
  · obtain ⟨he3, ha3⟩ := pyChoice_agree asciiDigits '0' ha2
    rw [he3]
    exact ⟨rfl, ha3⟩

theorem apply_modification_agree (name mtype : String) {r₁ r₂ : Rng}
    (h : Rng.AgreeFrom r₁ r₂) :
    agreePair (apply_modification name mtype r₁) (apply_modification name mtype r₂) := by
  unfold apply_modification
  split_ifs
  · exact ⟨rfl, h⟩
  · obtain ⟨he, ha⟩ := flip_edit_agree name.data h
    exact ⟨by rw [he], ha⟩
  · obtain ⟨he, ha⟩ := add_edit_agree name.data h
    exact ⟨by rw [he], ha⟩
  · obtain ⟨he, ha⟩ := remove_edit_agree name.data h
    exact ⟨by rw [he], ha⟩
  · obtain ⟨he, ha⟩ := replace_edit_agree name.data h
    exact ⟨by rw [he], ha⟩
  · exact ⟨rfl, h⟩

theorem choose_modification_type_eq (cfg : ColumnNameConfig) (r : Rng) :
    choose_modification_type cfg r =
      (if (([("flip", cfg.char_flip_weight), ("add", cfg.char_add_weight),
            ("remove", cfg.char_remove_weight),
            ("replace", cfg.char_replace_weight)]).map (fun x => x.2)).sum = 0
      then ("flip", r)
      else ((chooseScan (r.nextFloat.1 *
              (([("flip", cfg.char_flip_weight), ("add", cfg.char_add_weight),
                ("remove", cfg.char_remove_weight),
                ("replace", cfg.char_replace_weight)]).map (fun x => x.2)).sum) 0
              [("flip", cfg.char_flip_weight), ("add", cfg.char_add_weight),
               ("remove", cfg.char_remove_weight), ("replace", cfg.char_replace_weight)]).getD
            "flip",
          r.nextFloat.2)) := rfl

theorem choose_modification_type_agree (cfg : ColumnNameConfig) {r₁ r₂ : Rng}
    (h : Rng.AgreeFrom r₁ r₂) :
    agreePair (choose_modification_type cfg r₁) (choose_modification_type cfg r₂) := by
  obtain ⟨he, ha⟩ := nextFloat_agree h
  rw [choose_modification_type_eq, choose_modification_type_eq, he]
  split_ifs
  · exact ⟨rfl, h⟩
  · exact ⟨rfl, ha⟩

theorem modification_rounds_succ (cfg : ColumnNameConfig) (k : Nat) (s : String)
    (r : Rng) :
    modification_rounds cfg (k + 1) s r =
      modification_rounds cfg k
        (apply_modification s (choose_modification_type cfg r).1
          (choose_modification_type cfg r).2).1
        (apply_modification s (choose_modification_type cfg r).1
          (choose_modification_type cfg r).2).2 := rfl

theorem modification_rounds_agree (cfg : ColumnNameConfig) :
    ∀ (k : Nat) (s : String) {r₁ r₂ : Rng}, Rng.AgreeFrom r₁ r₂ →
      agreePair (modification_rounds cfg k s r₁) (modification_rounds cfg k s r₂) := by
  intro k
  induction k with
  | zero => intro s r₁ r₂ h; exact ⟨rfl, h⟩
  | succ n ih =>
      intro s r₁ r₂ h
      obtain ⟨he, ha⟩ := choose_modification_type_agree cfg h
      obtain ⟨he2, ha2⟩ := apply_modification_agree s (choose_modification_type cfg r₁).1 ha
      rw [modification_rounds_succ, modification_rounds_succ, ← he, he2]
      exact ih _ ha2

theorem modify_column_name_agree (cfg : ColumnNameConfig) (name : String) {r₁ r₂ : Rng}
    (h : Rng.AgreeFrom r₁ r₂) :
    agreePair (modify_column_name cfg name r₁) (modify_column_name cfg name r₂) := by
  unfold modify_column_name
  split_ifs
  · exact ⟨rfl, h⟩
  · exact modification_rounds_agree cfg _ name h

theorem get_random_column_name_eq (cfg : ColumnNameConfig) (pool : List String)
    (r : Rng) :
    get_random_column_name cfg pool r =
      (if (pyChoice pool "" r).2.nextFloat.1 < cfg.modification_probability then
        modify_column_name cfg (pyChoice pool "" r).1 (pyChoice pool "" r).2.nextFloat.2
      else ((pyChoice pool "" r).1, (pyChoice pool "" r).2.nextFloat.2)) := rfl

theorem get_random_column_name_agree (cfg : ColumnNameConfig) (pool : List String)
    {r₁ r₂ : Rng} (h : Rng.AgreeFrom r₁ r₂) :
    agreePair (get_random_column_name cfg pool r₁) (get_random_column_name cfg pool r₂) := by
  obtain ⟨he, ha⟩ := pyChoice_agree pool "" h
  obtain ⟨he2, ha2⟩ := nextFloat_agree ha
  rw [get_random_column_name_eq, get_random_column_name_eq, he, he2]
  split_ifs
  · exact modify_column_name_agree cfg _ ha2
  · exact ⟨rfl, ha2⟩

theorem rollFired_cons_eq (m : Manipulator) (ms : List Manipulator) (r : Rng) :
    rollFired (m :: ms) r =
      (if should_apply m r.nextFloat.1 then
        (m :: (rollFired ms r.nextFloat.2).1, (rollFired ms r.nextFloat.2).2)
      else rollFired ms r.nextFloat.2) := rfl

theorem rollFired_agree (ms : List Manipulator) :
    ∀ {r₁ r₂ : Rng}, Rng.AgreeFrom r₁ r₂ →
      agreePair (rollFired ms r₁) (rollFired ms r₂) := by
  induction ms with
  | nil => intro r₁ r₂ h; exact ⟨rfl, h⟩
  | cons m rest ih =>
      intro r₁ r₂ h
      obtain ⟨he, ha⟩ := nextFloat_agree h
      obtain ⟨he2, ha2⟩ := ih ha
      rw [rollFired_cons_eq, rollFired_cons_eq, he]
      split_ifs
      · exact ⟨by rw [he2], ha2⟩
      · exact ⟨he2, ha2⟩

theorem apply_manipulations_agree (ms : List Manipulator) (value : Value)
    (sqlType : String) {r₁ r₂ : Rng} (h : Rng.AgreeFrom r₁ r₂) :
    agreePair (apply_manipulations ms value sqlType r₁)
      (apply_manipulations ms value sqlType r₂) := by
  obtain ⟨he, ha⟩ := rollFired_agree (nullApplicable ms sqlType) h
  rw [apply_manipulations_eq, apply_manipulations_eq, he]
  split_ifs
  · exact ⟨rfl, ha⟩
  · obtain ⟨he2, ha2⟩ := rollFired_agree (nonNullApplicable ms sqlType) ha
    rw [he2]
    rcases hl : (rollFired (nonNullApplicable ms sqlType)
        (rollFired (nullApplicable ms sqlType) r₂).2).1 with _ | ⟨e, es⟩
    · exact ⟨rfl, ha2⟩
    · obtain ⟨hc1, hc2⟩ := pyChoice_agree (e :: es) e ha2
      show agreePair
        (applyManip (pyChoice (e :: es) e (rollFired (nonNullApplicable ms sqlType)
            (rollFired (nullApplicable ms sqlType) r₁).2).2).1 value,
         (pyChoice (e :: es) e (rollFired (nonNullApplicable ms sqlType)
            (rollFired (nullApplicable ms sqlType) r₁).2).2).2)
        (applyManip (pyChoice (e :: es) e (rollFired (nonNullApplicable ms sqlType)
            (rollFired (nullApplicable ms sqlType) r₂).2).2).1 value,
         (pyChoice (e :: es) e (rollFired (nonNullApplicable ms sqlType)
            (rollFired (nullApplicable ms sqlType) r₂).2).2).2)
      exact ⟨by rw [hc1], hc2⟩

theorem factory_cons_eq (p : Manipulator × Rat) (ps : List (Manipulator × Rat)) (r : Rng) :
    ManipulatorFactory.create (p :: ps) r =
      (if r.nextFloat.1 < p.2 then
        (p.1 :: (ManipulatorFactory.create ps r.nextFloat.2).1,
         (ManipulatorFactory.create ps r.nextFloat.2).2)
      else ManipulatorFactory.create ps r.nextFloat.2) := rfl

theorem factory_agree (ps : List (Manipulator × Rat)) :
    ∀ {r₁ r₂ : Rng}, Rng.AgreeFrom r₁ r₂ →
      agreePair (ManipulatorFactory.create ps r₁) (ManipulatorFactory.create ps r₂) := by
  induction ps with
  | nil => intro r₁ r₂ h; exact ⟨rfl, h⟩
  | cons p rest ih =>
      intro r₁ r₂ h
      obtain ⟨he, ha⟩ := nextFloat_agree h
      obtain ⟨he2, ha2⟩ := ih ha
      rw [factory_cons_eq, factory_cons_eq, he]
      split_ifs
      · exact ⟨by rw [he2], ha2⟩
      · exact ⟨he2, ha2⟩

theorem create_test_manipulator_agree {r₁ r₂ : Rng} (h : Rng.AgreeFrom r₁ r₂) :
    agreePair (create_test_manipulator r₁) (create_test_manipulator r₂) :=
  factory_agree _ h

theorem instantiate_generator_agree (g : GenSpec) {r₁ r₂ : Rng}
    (h : Rng.AgreeFrom r₁ r₂) :
    agreePair (instantiate_generator g r₁) (instantiate_generator g r₂) := by
  obtain ⟨he, ha⟩ := create_test_manipulator_agree h
  refine ⟨?_, ha⟩
  show (⟨g, (create_test_manipulator r₁).1⟩ : GenInst)
      = ⟨g, (create_test_manipulator r₂).1⟩
  rw [he]

theorem instantiate_all_agree (catalog : List GenSpec) :
    ∀ {r₁ r₂ : Rng}, Rng.AgreeFrom r₁ r₂ →
      agreePair (instantiate_all catalog r₁) (instantiate_all catalog r₂) := by
  induction catalog with
  | nil => intro r₁ r₂ h; exact ⟨rfl, h⟩
  | cons g rest ih =>
      intro r₁ r₂ h
      obtain ⟨he, ha⟩ := instantiate_generator_agree g h
      obtain ⟨he2, ha2⟩ := ih ha
      refine ⟨?_, ha2⟩
      show (instantiate_generator g r₁).1
            :: (instantiate_all rest (instantiate_generator g r₁).2).1
          = (instantiate_generator g r₂).1
            :: (instantiate_all rest (instantiate_generator g r₂).2).1
      rw [he, he2]

theorem get_generators_by_type_agree (catalog : List GenSpec) (sqlType : String)
    {r₁ r₂ : Rng} (h : Rng.AgreeFrom r₁ r₂) :
    agreePair (get_generators_by_type catalog sqlType r₁)
      (get_generators_by_type catalog sqlType r₂) := by
  obtain ⟨he, ha⟩ := instantiate_all_agree catalog h
  refine ⟨?_, ha⟩
  show (instantiate_all catalog r₁).1.filter (fun gi => gi.spec.sqlType == sqlType)
      = (instantiate_all catalog r₂).1.filter (fun gi => gi.spec.sqlType == sqlType)
  rw [he]

/-- Result agreement for the fallible selector. -/
def agreeExceptPair (x₁ x₂ : Except String (α × Rng)) : Prop :=
  match x₁, x₂ with
  | .error e₁, .error e₂ => e₁ = e₂
  | .ok p₁, .ok p₂ => agreePair p₁ p₂
  | _, _ => False

theorem grw_agree (w : TypeWeights) (catalog : List GenSpec) {r₁ r₂ : Rng}
    (h : Rng.AgreeFrom r₁ r₂) :
    agreeExceptPair (get_random_generator_weighted w catalog r₁)
      (get_random_generator_weighted w catalog r₂) := by
  rcases hw : weighted_types w with _ | ⟨t, ts⟩
  · rw [get_random_generator_weighted_eq, get_random_generator_weighted_eq, hw]
    exact rfl
  · obtain ⟨he, ha⟩ := pyChoice_agree (t :: ts) t h
    obtain ⟨he2, ha2⟩ := get_generators_by_type_agree catalog
      (pyChoice (t :: ts) t r₂).1 ha
    rcases hg2 : (get_generators_by_type catalog (pyChoice (t :: ts) t r₂).1
        (pyChoice (t :: ts) t r₂).2).1 with _ | ⟨g0, gs⟩
    · have hg1 : (get_generators_by_type catalog (pyChoice (t :: ts) t r₁).1
          (pyChoice (t :: ts) t r₁).2).1 = [] := by
        rw [he, he2, hg2]
      rw [grw_error_of_no_gens hw hg1, grw_error_of_no_gens hw hg2]
      show ("No generators found for SQL type: " ++ (pyChoice (t :: ts) t r₁).1)
          = ("No generators found for SQL type: " ++ (pyChoice (t :: ts) t r₂).1)
      rw [he]
    · have hg1 : (get_generators_by_type catalog (pyChoice (t :: ts) t r₁).1
          (pyChoice (t :: ts) t r₁).2).1 = g0 :: gs := by
        rw [he, he2, hg2]
      rw [grw_ok_of_gens hw hg1, grw_ok_of_gens hw hg2]
      have ha3 : Rng.AgreeFrom
          (get_generators_by_type catalog (pyChoice (t :: ts) t r₁).1
            (pyChoice (t :: ts) t r₁).2).2
          (get_generators_by_type catalog (pyChoice (t :: ts) t r₂).1
            (pyChoice (t :: ts) t r₂).2).2 := by
        rw [he]; exact ha2
      exact pyChoice_agree (g0 :: gs) g0 ha3

theorem collision_go_agree (used : List String) (nameDraw : Rng → String × Rng)
    (hnd : ∀ {s₁ s₂ : Rng}, Rng.AgreeFrom s₁ s₂ →
      agreePair (nameDraw s₁) (nameDraw s₂)) :
    ∀ (fuel counter : Nat) {r₁ r₂ : Rng}, Rng.AgreeFrom r₁ r₂ →
      agreePair (collision_go used nameDraw fuel counter r₁)
        (collision_go used nameDraw fuel counter r₂) := by
  intro fuel
  induction fuel with
  | zero =>
      intro counter r₁ r₂ h
      obtain ⟨he, ha⟩ := hnd h
      unfold collision_go
      exact ⟨by rw [he], ha⟩
  | succ n ih =>
      intro counter r₁ r₂ h
      obtain ⟨he, ha⟩ := hnd h
      rw [collision_go_succ, collision_go_succ, he]
      split_ifs
      · exact ih (counter + 1) ha
      · exact ⟨rfl, ha⟩

theorem ensure_unique_name_eq (used : List String) (nameDraw : Rng → String × Rng)
    (r : Rng) :
    ensure_unique_name used nameDraw r =
      if (nameDraw r).1 ∈ used then collision_loop used nameDraw 1 (nameDraw r).2
      else ((nameDraw r).1, (nameDraw r).2) := rfl

theorem ensure_unique_name_agree (used : List String) (nameDraw : Rng → String × Rng)
    (hnd : ∀ {s₁ s₂ : Rng}, Rng.AgreeFrom s₁ s₂ →
      agreePair (nameDraw s₁) (nameDraw s₂))
    {r₁ r₂ : Rng} (h : Rng.AgreeFrom r₁ r₂) :
    agreePair (ensure_unique_name used nameDraw r₁)
      (ensure_unique_name used nameDraw r₂) := by
  obtain ⟨he, ha⟩ := hnd h
  rw [ensure_unique_name_eq, ensure_unique_name_eq, he]
  split_ifs
  · exact collision_go_agree used nameDraw hnd _ 1 ha
  · exact ⟨rfl, ha⟩

/-- Result agreement for schema building. -/
def agreeExceptTriple (x₁ x₂ : Except String (List String × List ColumnDef × Rng)) : Prop :=
  match x₁, x₂ with
  | .error e₁, .error e₂ => e₁ = e₂
  | .ok p₁, .ok p₂ => p₁.1 = p₂.1 ∧ p₁.2.1 = p₂.2.1 ∧ Rng.AgreeFrom p₁.2.2 p₂.2.2
  | _, _ => False

theorem schema_loop_step_error (w : TypeWeights) (catalog : List GenSpec)
    (cfg : ColumnNameConfig) (k : Nat) (used cols : List String)
    (defs : List ColumnDef) (r : Rng) (e : String)
    (hg : get_random_generator_weighted w catalog r = .error e) :
    schema_loop w catalog cfg (k + 1) used cols defs r = .error e := by
  conv_lhs => unfold schema_loop
  rw [hg]

theorem schema_loop_step_ok (w : TypeWeights) (catalog : List GenSpec)
    (cfg : ColumnNameConfig) (k : Nat) (used cols : List String)
    (defs : List ColumnDef) (r : Rng) (gen : GenInst) (r1 : Rng)
    (hg : get_random_generator_weighted w catalog r = .ok (gen, r1)) :
    schema_loop w catalog cfg (k + 1) used cols defs r =
      schema_loop w catalog cfg k
        ((ensure_unique_name used (get_random_column_name cfg gen.spec.columnNames) r1).1
          :: used)
        (cols ++ [(ensure_unique_name used
            (get_random_column_name cfg gen.spec.columnNames) r1).1
          ++ " " ++ gen.spec.sqlType])
        (defs ++ [⟨(ensure_unique_name used
            (get_random_column_name cfg gen.spec.columnNames) r1).1,
          gen.spec.name, some gen⟩])
        (ensure_unique_name used (get_random_column_name cfg gen.spec.columnNames) r1).2 := by
  conv_lhs => unfold schema_loop
  rw [hg]

theorem schema_loop_agree (w : TypeWeights) (catalog : List GenSpec)
    (cfg : ColumnNameConfig) :
    ∀ (k : Nat) (used cols : List String) (defs : List ColumnDef) {r₁ r₂ : Rng},
      Rng.AgreeFrom r₁ r₂ →
      agreeExceptTriple (schema_loop w catalog cfg k used cols defs r₁)
        (schema_loop w catalog cfg k used cols defs r₂) := by
  intro k
  induction k with
  | zero =>
      intro used cols defs r₁ r₂ h
      exact ⟨rfl, rfl, h⟩
  | succ n ih =>
      intro used cols defs r₁ r₂ h
      have hg := grw_agree w catalog h
      rcases hg1 : get_random_generator_weighted w catalog r₁ with e₁ | ⟨g₁, s₁⟩ <;>
        rcases hg2 : get_random_generator_weighted w catalog r₂ with e₂ | ⟨g₂, s₂⟩ <;>
        rw [hg1, hg2] at hg
      · rw [schema_loop_step_error w catalog cfg n used cols defs r₁ e₁ hg1,
          schema_loop_step_error w catalog cfg n used cols defs r₂ e₂ hg2]
        exact hg
      · exact absurd hg (by simp [agreeExceptPair])
      · exact absurd hg (by simp [agreeExceptPair])
      · obtain ⟨hge, hga⟩ := hg
        simp only at hge
        subst hge
        rw [schema_loop_step_ok w catalog cfg n used cols defs r₁ g₁ s₁ hg1,
          schema_loop_step_ok w catalog cfg n used cols defs r₂ g₁ s₂ hg2]
        obtain ⟨hne, hna⟩ := ensure_unique_name_agree used
          (get_random_column_name cfg g₁.spec.columnNames)
          (fun ha => get_random_column_name_agree cfg g₁.spec.columnNames ha) hga
        rw [hne]
        exact ih _ _ _ hna

/-- Result agreement for full table-schema generation. -/
def agreeExceptSchema (x₁ x₂ : Except String (String × List ColumnDef × Rng)) : Prop :=
  match x₁, x₂ with
  | .error e₁, .error e₂ => e₁ = e₂
  | .ok (a₁, b₁, c₁), .ok (a₂, b₂, c₂) => a₁ = a₂ ∧ b₁ = b₂ ∧ Rng.AgreeFrom c₁ c₂
  | _, _ => False

theorem generate_table_schema_agree (w : TypeWeights) (catalog : List GenSpec)
    (cfg : ColumnNameConfig) (tableName : String) {r₁ r₂ : Rng}
    (h : Rng.AgreeFrom r₁ r₂) :
    agreeExceptSchema (generate_table_schema w catalog cfg tableName r₁)
      (generate_table_schema w catalog cfg tableName r₂) := by
  obtain ⟨hn, ha⟩ := pyRandint_agree 3 8 h
  rw [generate_table_schema_eq, generate_table_schema_eq, hn]
  have hs := schema_loop_agree w catalog cfg ((pyRandint 3 8 r₂).1 - 1) ["id"]
    ["id INTEGER PRIMARY KEY AUTOINCREMENT"] [idColumnDef] ha
  rcases h1 : schema_loop w catalog cfg ((pyRandint 3 8 r₂).1 - 1) ["id"]
      ["id INTEGER PRIMARY KEY AUTOINCREMENT"] [idColumnDef] (pyRandint 3 8 r₁).2
    with e₁ | ⟨cols₁, defs₁, s₁⟩ <;>
    rcases h2 : schema_loop w catalog cfg ((pyRandint 3 8 r₂).1 - 1) ["id"]
        ["id INTEGER PRIMARY KEY AUTOINCREMENT"] [idColumnDef] (pyRandint 3 8 r₂).2
      with e₂ | ⟨cols₂, defs₂, s₂⟩ <;>
    rw [h1, h2] at hs
  · exact hs
  · exact hs.elim
  · exact hs.elim
  · obtain ⟨hcols, hdefs, hrng⟩ := hs
    simp only at hcols hdefs
    exact ⟨by rw [hcols], hdefs, hrng⟩

theorem pyUniform_agree (a b : Rat) {r₁ r₂ : Rng} (h : Rng.AgreeFrom r₁ r₂) :
    agreePair (pyUniform a b r₁) (pyUniform a b r₂) := by
  obtain ⟨he, ha⟩ := nextFloat_agree h
  exact ⟨by simp only [pyUniform, he], ha⟩

theorem generate_raw_data_eq (g : GenSpec) (r : Rng) :
    generate_raw_data g r =
      if g.name == "age" then
        (.vInt (pyRandint 18 90 r).1, (pyRandint 18 90 r).2)
      else if g.name == "employee_id" then
        (.vInt (pyRandint 1000 9999 r).1, (pyRandint 1000 9999 r).2)
      else if g.name == "quantity" then
        (.vInt (pyRandint 1 1000 r).1, (pyRandint 1 1000 r).2)
      else if g.name == "year" then
        (.vInt (pyRandint 1950 2024 r).1, (pyRandint 1950 2024 r).2)
      else if g.name == "order_id" then
        (.vInt ((pyChoice ([12, 92] : List Int) 12 r).1 * 1000000
            + (pyRandint 100000 999999 (pyChoice ([12, 92] : List Int) 12 r).2).1),
         (pyRandint 100000 999999 (pyChoice ([12, 92] : List Int) 12 r).2).2)
      else if g.name == "temperature" then
        (.vReal (pyRound (pyUniform (-10) 40 r).1 1), (pyUniform (-10) 40 r).2)
      else if g.name == "latitude" then
        (.vReal (pyRound (pyUniform (-90) 90 r).1 6), (pyUniform (-90) 90 r).2)
      else if g.name == "longitude" then
        (.vReal (pyRound (pyUniform (-180) 180 r).1 6), (pyUniform (-180) 180 r).2)
      else (.vStr (g.name ++ "_" ++ decStr r.nextNat.1), r.nextNat.2) := rfl

theorem generate_raw_data_agree (g : GenSpec) {r₁ r₂ : Rng}
    (h : Rng.AgreeFrom r₁ r₂) :
    agreePair (generate_raw_data g r₁) (generate_raw_data g r₂) := by
  obtain ⟨hn, han⟩ := nextNat_agree h
  rw [generate_raw_data_eq, generate_raw_data_eq]
  split_ifs
  · obtain ⟨he, ha⟩ := pyRandint_agree 18 90 h
    exact ⟨by rw [he], ha⟩
  · obtain ⟨he, ha⟩ := pyRandint_agree 1000 9999 h
    exact ⟨by rw [he], ha⟩
  · obtain ⟨he, ha⟩ := pyRandint_agree 1 1000 h
    exact ⟨by rw [he], ha⟩
  · obtain ⟨he, ha⟩ := pyRandint_agree 1950 2024 h
    exact ⟨by rw [he], ha⟩
  · obtain ⟨he, ha⟩ := pyChoice_agree ([12, 92] : List Int) 12 h
    obtain ⟨he2, ha2⟩ := pyRandint_agree 100000 999999 ha
    exact ⟨by rw [he, he2], ha2⟩
  · obtain ⟨he, ha⟩ := pyUniform_agree (-10) 40 h
    exact ⟨by rw [he], ha⟩
  · obtain ⟨he, ha⟩ := pyUniform_agree (-90) 90 h
    exact ⟨by rw [he], ha⟩
  · obtain ⟨he, ha⟩ := pyUniform_agree (-180) 180 h
    exact ⟨by rw [he], ha⟩
  · exact ⟨by rw [hn], han⟩

theorem generate_data_eq (gi : GenInst) (r : Rng) :
    generate_data gi r =
      apply_manipulations gi.manipulators (generate_raw_data gi.spec r).1
        gi.spec.sqlType (generate_raw_data gi.spec r).2 := rfl

theorem generate_data_agree (gi : GenInst) {r₁ r₂ : Rng}
    (h : Rng.AgreeFrom r₁ r₂) :
    agreePair (generate_data gi r₁) (generate_data gi r₂) := by
  obtain ⟨he, ha⟩ := generate_raw_data_agree gi.spec h
  rw [generate_data_eq, generate_data_eq, he]
  exact apply_manipulations_agree gi.manipulators _ gi.spec.sqlType ha

theorem generate_row_data_cons (d : ColumnDef) (rest : List ColumnDef) (r : Rng) :
    generate_row_data (d :: rest) r =
      if d.colName == "id" then generate_row_data rest r
      else
        match d.gen with
        | none => (.vNull :: (generate_row_data rest r).1, (generate_row_data rest r).2)
        | some g =>
            ((generate_data g r).1
              :: (generate_row_data rest (generate_data g r).2).1,
             (generate_row_data rest (generate_data g r).2).2) := by
  rw [generate_row_data]

theorem generate_row_data_agree :
    ∀ (defs : List ColumnDef) {r₁ r₂ : Rng}, Rng.AgreeFrom r₁ r₂ →
      agreePair (generate_row_data defs r₁) (generate_row_data defs r₂) := by
  intro defs
  induction defs with
  | nil => intro r₁ r₂ h; exact ⟨rfl, h⟩
  | cons d rest ih =>
      intro r₁ r₂ h
      rw [generate_row_data_cons, generate_row_data_cons]
      split_ifs
      · exact ih h
      · rcases d.gen with _ | g
        · obtain ⟨he, ha⟩ := ih h
          refine ⟨?_, ha⟩
          show Value.vNull :: (generate_row_data rest r₁).1
              = Value.vNull :: (generate_row_data rest r₂).1
          rw [he]
        · obtain ⟨he, ha⟩ := generate_data_agree g h
          obtain ⟨he2, ha2⟩ := ih ha
          refine ⟨?_, ha2⟩
          show (generate_data g r₁).1
                :: (generate_row_data rest (generate_data g r₁).2).1
              = (generate_data g r₂).1
                :: (generate_row_data rest (generate_data g r₂).2).1
          rw [he, he2]

theorem generate_rows_succ (defs : List ColumnDef) (k : Nat) (r : Rng) :
    generate_rows defs (k + 1) r =
      ((generate_row_data defs r).1
         :: (generate_rows defs k (generate_row_data defs r).2).1,
       (generate_rows defs k (generate_row_data defs r).2).2) := rfl

theorem generate_rows_agree (defs : List ColumnDef) :
    ∀ (k : Nat) {r₁ r₂ : Rng}, Rng.AgreeFrom r₁ r₂ →
      agreePair (generate_rows defs k r₁) (generate_rows defs k r₂) := by
  intro k
  induction k with
  | zero => intro r₁ r₂ h; exact ⟨rfl, h⟩
  | succ n ih =>
      intro r₁ r₂ h
      obtain ⟨he, ha⟩ := generate_row_data_agree defs h
      obtain ⟨he2, ha2⟩ := ih ha
      rw [generate_rows_succ, generate_rows_succ]
      exact ⟨by rw [he, he2], ha2⟩

/-- Result agreement for one table build. -/
def agreeExceptTable
    (x₁ x₂ : Except String (String × List ColumnDef × List (List Value) × Rng)) : Prop :=
  match x₁, x₂ with
  | .error e₁, .error e₂ => e₁ = e₂
  | .ok (a₁, b₁, c₁, d₁), .ok (a₂, b₂, c₂, d₂) =>
      a₁ = a₂ ∧ b₁ = b₂ ∧ c₁ = c₂ ∧ Rng.AgreeFrom d₁ d₂
  | _, _ => False

theorem create_table_data_eq (w : TypeWeights) (catalog : List GenSpec)
    (cfg : ColumnNameConfig) (minRows maxRows : Nat) (tableName : String) (r : Rng) :
    create_table_data w catalog cfg minRows maxRows tableName r =
      match generate_table_schema w catalog cfg tableName r with
      | .error e => .error e
      | .ok (schema, defs, r1) =>
          .ok (schema, defs,
            (generate_rows defs (pyRandint minRows maxRows r1).1
              (pyRandint minRows maxRows r1).2).1,
            (generate_rows defs (pyRandint minRows maxRows r1).1
              (pyRandint minRows maxRows r1).2).2) := by
  unfold create_table_data
  rcases generate_table_schema w catalog cfg tableName r with e | ⟨schema, defs, r1⟩ <;> rfl

theorem create_table_data_agree (w : TypeWeights) (catalog : List GenSpec)
    (cfg : ColumnNameConfig) (minRows maxRows : Nat) (tableName : String)
    {r₁ r₂ : Rng} (h : Rng.AgreeFrom r₁ r₂) :
    agreeExceptTable (create_table_data w catalog cfg minRows maxRows tableName r₁)
      (create_table_data w catalog cfg minRows maxRows tableName r₂) := by
  have hs := generate_table_schema_agree w catalog cfg tableName h
  rw [create_table_data_eq, create_table_data_eq]
  rcases h1 : generate_table_schema w catalog cfg tableName r₁
    with e₁ | ⟨sch₁, defs₁, s₁⟩ <;>
    rcases h2 : generate_table_schema w catalog cfg tableName r₂
      with e₂ | ⟨sch₂, defs₂, s₂⟩ <;>
    rw [h1, h2] at hs
  · exact hs
  · exact hs.elim
  · exact hs.elim
  · obtain ⟨hsch, hdefs, hrng⟩ := hs
    subst hsch
    subst hdefs
    obtain ⟨hn, ha⟩ := pyRandint_agree minRows maxRows hrng
    obtain ⟨hrow, hrng2⟩ := generate_rows_agree defs₁
      ((pyRandint minRows maxRows s₂).1) ha
    show agreeExceptTable
      (Except.ok (sch₁, defs₁,
        (generate_rows defs₁ (pyRandint minRows maxRows s₁).1
          (pyRandint minRows maxRows s₁).2).1,
        (generate_rows defs₁ (pyRandint minRows maxRows s₁).1
          (pyRandint minRows maxRows s₁).2).2))
      (Except.ok (sch₁, defs₁,
        (generate_rows defs₁ (pyRandint minRows maxRows s₂).1
          (pyRandint minRows maxRows s₂).2).1,
        (generate_rows defs₁ (pyRandint minRows maxRows s₂).1
          (pyRandint minRows maxRows s₂).2).2))
    rw [hn]
    exact ⟨rfl, rfl, by rw [hrow], hrng2⟩

theorem generate_tables_succ (w : TypeWeights) (catalog : List GenSpec)
    (cfg : ColumnNameConfig) (minRows maxRows k i : Nat) (r : Rng) :
    generate_tables w catalog cfg minRows maxRows (k + 1) i r =
      match create_table_data w catalog cfg minRows maxRows ("table" ++ decStr i) r with
      | .error e => ([], some e, r)
      | .ok (schema, defs, rows, r1) =>
          ((schema, defs, rows)
              :: (generate_tables w catalog cfg minRows maxRows k (i + 1) r1).1,
           (generate_tables w catalog cfg minRows maxRows k (i + 1) r1).2.1,
           (generate_tables w catalog cfg minRows maxRows k (i + 1) r1).2.2) := by
  conv_lhs => unfold generate_tables

theorem generate_tables_agree (w : TypeWeights) (catalog : List GenSpec)
    (cfg : ColumnNameConfig) (minRows maxRows : Nat) :
    ∀ (k i : Nat) {r₁ r₂ : Rng}, Rng.AgreeFrom r₁ r₂ →
      (generate_tables w catalog cfg minRows maxRows k i r₁).1
          = (generate_tables w catalog cfg minRows maxRows k i r₂).1 ∧
        (generate_tables w catalog cfg minRows maxRows k i r₁).2.1
          = (generate_tables w catalog cfg minRows maxRows k i r₂).2.1 ∧
        Rng.AgreeFrom (generate_tables w catalog cfg minRows maxRows k i r₁).2.2
          (generate_tables w catalog cfg minRows maxRows k i r₂).2.2 := by
  intro k
  induction k with
  | zero => intro i r₁ r₂ h; exact ⟨rfl, rfl, h⟩
  | succ n ih =>
      intro i r₁ r₂ h
      have hc := create_table_data_agree w catalog cfg minRows maxRows
        ("table" ++ decStr i) h
      rw [generate_tables_succ, generate_tables_succ]
      rcases h1 : create_table_data w catalog cfg minRows maxRows
          ("table" ++ decStr i) r₁ with e₁ | ⟨sch₁, defs₁, rows₁, s₁⟩ <;>
        rcases h2 : create_table_data w catalog cfg minRows maxRows
            ("table" ++ decStr i) r₂ with e₂ | ⟨sch₂, defs₂, rows₂, s₂⟩ <;>
        rw [h1, h2] at hc
      · exact ⟨rfl, by rw [show e₁ = e₂ from hc], h⟩
      · exact hc.elim
      · exact hc.elim
      · obtain ⟨hsch, hdefs, hrows, hrng⟩ := hc
        subst hsch; subst hdefs; subst hrows
        obtain ⟨ht1, ht2, ht3⟩ := ih (i + 1) hrng
        refine ⟨?_, ?_, ?_⟩
        · show (sch₁, defs₁, rows₁)
              :: (generate_tables w catalog cfg minRows maxRows n (i + 1) s₁).1
            = (sch₁, defs₁, rows₁)
              :: (generate_tables w catalog cfg minRows maxRows n (i + 1) s₂).1
          rw [ht1]
        · show (generate_tables w catalog cfg minRows maxRows n (i + 1) s₁).2.1
            = (generate_tables w catalog cfg minRows maxRows n (i + 1) s₂).2.1
          rw [ht2]
        · exact ht3

theorem generate_database_eq (w : TypeWeights) (catalog : List GenSpec)
    (cfg : ColumnNameConfig) (minTables maxTables minRows maxRows : Nat) (r : Rng) :
    generate_database w catalog cfg minTables maxTables minRows maxRows r =
      generate_tables w catalog cfg minRows maxRows
        (pyRandint minTables maxTables r).1 1 (pyRandint minTables maxTables r).2 := rfl

/-- C8: generation is deterministic in the random source.  The code exposes
no seed interface (`random` is used unseeded throughout); a seed is
modelled, per the spec, as fixing the draw streams of the shared source
from the current positions on.  Two runs of the full pipeline whose
sources agree from their positions — in particular two runs started from
the same seed — produce identical table definitions (schemas and column
definitions) and identical row sequences, and fail with the same error if
one fails: the pipeline consumes the source in a fixed order and its
output depends on nothing else. -/
theorem c8_deterministic_generation :
    ∀ (w : TypeWeights) (catalog : List GenSpec) (cfg : ColumnNameConfig)
      (minTables maxTables minRows maxRows : Nat) (r₁ r₂ : Rng),
      Rng.AgreeFrom r₁ r₂ →
      (generate_database w catalog cfg minTables maxTables minRows maxRows r₁).1
          = (generate_database w catalog cfg minTables maxTables minRows maxRows r₂).1 ∧
        (generate_database w catalog cfg minTables maxTables minRows maxRows r₁).2.1
          = (generate_database w catalog cfg minTables maxTables minRows maxRows r₂).2.1 := by
  intro w catalog cfg minTables maxTables minRows maxRows r₁ r₂ h
  obtain ⟨hn, ha⟩ := pyRandint_agree minTables maxTables h
  rw [generate_database_eq, generate_database_eq, hn]
  obtain ⟨h1, h2, _⟩ := generate_tables_agree w catalog cfg minRows maxRows
    ((pyRandint minTables maxTables r₂).1) 1 ha
  exact ⟨h1, h2⟩

/-- A random source five float draws and three index draws into its run,
with constant streams ahead of it. -/
def rngC8a : Rng := ⟨fun _ => 1/2, fun _ => 0, 5, 3⟩

/-- A source with the same positions and the same streams from those
positions on as `rngC8a`, but a different already-consumed history. -/
def rngC8b : Rng :=
  ⟨fun n => if n < 5 then 0 else 1/2, fun n => if n < 3 then 7 else 0, 5, 3⟩

/-- Witness for C8: the two concrete sources `rngC8a` and `rngC8b` agree
from their positions on, and the full configured pipeline produces the
same table list on both. -/
theorem c8_deterministic_generation_witness :
    Rng.AgreeFrom rngC8a rngC8b ∧
      (generate_database CONFIG_GENERATOR_WEIGHTS AVAILABLE_GENERATORS
          CONFIG_COLUMN_NAME CONFIG_MIN_TABLES CONFIG_MAX_TABLES
          CONFIG_MIN_ROWS CONFIG_MAX_ROWS rngC8a).1
        = (generate_database CONFIG_GENERATOR_WEIGHTS AVAILABLE_GENERATORS
            CONFIG_COLUMN_NAME CONFIG_MIN_TABLES CONFIG_MAX_TABLES
            CONFIG_MIN_ROWS CONFIG_MAX_ROWS rngC8b).1 := by
  have hagree : Rng.AgreeFrom rngC8a rngC8b := by
    refine ⟨rfl, rfl, fun n hn => ?_, fun n hn => ?_⟩
    · have hn5 : 5 ≤ n := hn
      show (1/2 : Rat) = if n < 5 then 0 else 1/2
      rw [if_neg (by omega)]
    · have hn3 : 3 ≤ n := hn
      show (0 : Nat) = if n < 3 then 7 else 0
      rw [if_neg (by omega)]
  exact ⟨hagree, (c8_deterministic_generation CONFIG_GENERATOR_WEIGHTS
    AVAILABLE_GENERATORS CONFIG_COLUMN_NAME CONFIG_MIN_TABLES CONFIG_MAX_TABLES
    CONFIG_MIN_ROWS CONFIG_MAX_ROWS rngC8a rngC8b hagree).1⟩
